import Mathlib

/-!
# GeneralResponse and HttpCommTask

A shallow embedding of `lib/Rest/GeneralResponse.cpp` (status strings, the
projection of internal error numbers to HTTP statuses, the header map) and of
the chunked framing of `HttpServer/HttpCommTask`.
-/

namespace StringUtils

/-- Modelled from the spec: `StringUtils::itoa` (from `Basics/StringUtils`, not among the
sources at hand) renders an `int` in decimal, with a leading minus sign for a
negative number. -/
def itoa (n : Int) : String :=
  match n with
  | Int.ofNat m => Nat.repr m
  | Int.negSucc m => "-" ++ Nat.repr (m + 1)

/-- Modelled from the spec: `StringUtils::tolower` (from `Basics/StringUtils`, not among the
sources at hand) returns the string with every character put through the C function
`tolower`: the letters `A` to `Z` become `a` to `z`, all else is kept. -/
def tolower (s : String) : String :=
  String.mk (s.data.map Char.toLower)

end StringUtils

/-- The C function `isspace` in the "C" locale: space, `\t`, `\n`, `\v`, `\f` and `\r`. -/
def isspace (c : Char) : Bool :=
  c = ' ' || c = '\t' || c = '\n' || c = Char.ofNat 11 || c = Char.ofNat 12 || c = '\r'

/-- The decimal digits at the front of the input, read as a number that starts from `acc`. -/
def atoiDigits (acc : Nat) : List Char → Nat
  | [] => acc
  | c :: cs => if c.isDigit then atoiDigits (acc * 10 + (c.toNat - 48)) cs else acc

/-- The number written at the front of a string, read the way `atoi` reads: leading white
space is skipped, then come an optional sign and as many decimal digits as there are; the
value is 0 when there is no digit. This is the mathematical value of the digits, whatever
their number. -/
def leadingInteger (str : String) : Int :=
  match str.data.dropWhile isspace with
  | '-' :: cs => -((atoiDigits 0 cs : Nat) : Int)
  | '+' :: cs => ((atoiDigits 0 cs : Nat) : Int)
  | cs => ((atoiDigits 0 cs : Nat) : Int)

/-- The result of `strtol` for a number read: a `long` of 64 bits, a number beyond its range
is replaced by `LONG_MAX` or `LONG_MIN`. -/
def clampLong (v : Int) : Int :=
  if 9223372036854775807 < v then 9223372036854775807
  else if v < -9223372036854775808 then -9223372036854775808
  else v

/-- The conversion of a `long` to the 32 bit `int`: the value modulo 2^32, taken in the range
from -2^31 to 2^31 - 1. -/
def toInt32 (v : Int) : Int :=
  (v + 2147483648) % 4294967296 - 2147483648

/-- The C library function `atoi`, whose result is an `int`: for a number within the range of
`int` it is the number written at the front of the string. For a number outside that
range the C standard leaves the result undefined; the embedding follows the C library
of the platform (glibc, `long` of 64 bits), where `atoi(s)` is `(int) strtol(s, NULL, 10)`. -/
def atoi (str : String) : Int :=
  toInt32 (clampLong (leadingInteger str))

namespace GeneralResponse

/-- Modelled from the spec: the type `GeneralResponse::ResponseCode` is declared in
`GeneralResponse.h`, which is not among the sources at hand. It is an enumeration
over `int`; a value cast from any `int` is possible (`responseString` has a
`default:` branch for it), so the type is embedded as the integers. -/
abbrev ResponseCode := Int

namespace ResponseCode

/-- Modelled from the spec: the enumerators of `ResponseCode` (declared in
`GeneralResponse.h`) carry their HTTP status number, the number of the response-code
table and the one `responseCode(std::string const&)` maps to the enumerator. -/
abbrev CONTINUE : ResponseCode := 100
abbrev SWITCHING_PROTOCOLS : ResponseCode := 101
abbrev PROCESSING : ResponseCode := 102
abbrev OK : ResponseCode := 200
abbrev CREATED : ResponseCode := 201
abbrev ACCEPTED : ResponseCode := 202
abbrev PARTIAL : ResponseCode := 203
abbrev NO_CONTENT : ResponseCode := 204
abbrev RESET_CONTENT : ResponseCode := 205
abbrev PARTIAL_CONTENT : ResponseCode := 206
abbrev MOVED_PERMANENTLY : ResponseCode := 301
abbrev FOUND : ResponseCode := 302
abbrev SEE_OTHER : ResponseCode := 303
abbrev NOT_MODIFIED : ResponseCode := 304
abbrev TEMPORARY_REDIRECT : ResponseCode := 307
abbrev PERMANENT_REDIRECT : ResponseCode := 308
abbrev BAD : ResponseCode := 400
abbrev UNAUTHORIZED : ResponseCode := 401
abbrev PAYMENT_REQUIRED : ResponseCode := 402
abbrev FORBIDDEN : ResponseCode := 403
abbrev NOT_FOUND : ResponseCode := 404
abbrev METHOD_NOT_ALLOWED : ResponseCode := 405
abbrev NOT_ACCEPTABLE : ResponseCode := 406
abbrev REQUEST_TIMEOUT : ResponseCode := 408
abbrev CONFLICT : ResponseCode := 409
abbrev GONE : ResponseCode := 410
abbrev LENGTH_REQUIRED : ResponseCode := 411
abbrev PRECONDITION_FAILED : ResponseCode := 412
abbrev REQUEST_ENTITY_TOO_LARGE : ResponseCode := 413
abbrev REQUEST_URI_TOO_LONG : ResponseCode := 414
abbrev UNSUPPORTED_MEDIA_TYPE : ResponseCode := 415
abbrev REQUESTED_RANGE_NOT_SATISFIABLE : ResponseCode := 416
abbrev EXPECTATION_FAILED : ResponseCode := 417
abbrev I_AM_A_TEAPOT : ResponseCode := 418
abbrev UNPROCESSABLE_ENTITY : ResponseCode := 422
abbrev LOCKED : ResponseCode := 423
abbrev PRECONDITION_REQUIRED : ResponseCode := 428
abbrev TOO_MANY_REQUESTS : ResponseCode := 429
abbrev REQUEST_HEADER_FIELDS_TOO_LARGE : ResponseCode := 431
abbrev UNAVAILABLE_FOR_LEGAL_REASONS : ResponseCode := 451
abbrev SERVER_ERROR : ResponseCode := 500
abbrev NOT_IMPLEMENTED : ResponseCode := 501
abbrev BAD_GATEWAY : ResponseCode := 502
abbrev SERVICE_UNAVAILABLE : ResponseCode := 503
abbrev HTTP_VERSION_NOT_SUPPORTED : ResponseCode := 505
abbrev BANDWIDTH_LIMIT_EXCEEDED : ResponseCode := 509
abbrev NOT_EXTENDED : ResponseCode := 510

end ResponseCode

/-- The function `GeneralResponse::responseString`: a `switch` over the named codes, whose
`default:` branch picks a generic phrase from `group = ((int)code) / 100`
(C division, truncating towards zero) and falls through to "Unknown". -/
def responseString (code : ResponseCode) : String :=
  if code = ResponseCode.CONTINUE then "100 Continue"
  else if code = ResponseCode.SWITCHING_PROTOCOLS then "101 Switching Protocols"
  else if code = ResponseCode.PROCESSING then "102 Processing"
  else if code = ResponseCode.OK then "200 OK"
  else if code = ResponseCode.CREATED then "201 Created"
  else if code = ResponseCode.ACCEPTED then "202 Accepted"
  else if code = ResponseCode.PARTIAL then "203 Non-Authoritative Information"
  else if code = ResponseCode.NO_CONTENT then "204 No Content"
  else if code = ResponseCode.RESET_CONTENT then "205 Reset Content"
  else if code = ResponseCode.PARTIAL_CONTENT then "206 Partial Content"
  else if code = ResponseCode.MOVED_PERMANENTLY then "301 Moved Permanently"
  else if code = ResponseCode.FOUND then "302 Found"
  else if code = ResponseCode.SEE_OTHER then "303 See Other"
  else if code = ResponseCode.NOT_MODIFIED then "304 Not Modified"
  else if code = ResponseCode.TEMPORARY_REDIRECT then "307 Temporary Redirect"
  else if code = ResponseCode.PERMANENT_REDIRECT then "308 Permanent Redirect"
  else if code = ResponseCode.BAD then "400 Bad Request"
  else if code = ResponseCode.UNAUTHORIZED then "401 Unauthorized"
  else if code = ResponseCode.PAYMENT_REQUIRED then "402 Payment Required"
  else if code = ResponseCode.FORBIDDEN then "403 Forbidden"
  else if code = ResponseCode.NOT_FOUND then "404 Not Found"
  else if code = ResponseCode.METHOD_NOT_ALLOWED then "405 Method Not Allowed"
  else if code = ResponseCode.NOT_ACCEPTABLE then "406 Not Acceptable"
  else if code = ResponseCode.REQUEST_TIMEOUT then "408 Request Timeout"
  else if code = ResponseCode.CONFLICT then "409 Conflict"
  else if code = ResponseCode.GONE then "410 Gone"
  else if code = ResponseCode.LENGTH_REQUIRED then "411 Length Required"
  else if code = ResponseCode.PRECONDITION_FAILED then "412 Precondition Failed"
  else if code = ResponseCode.REQUEST_ENTITY_TOO_LARGE then "413 Payload Too Large"
  else if code = ResponseCode.REQUEST_URI_TOO_LONG then "414 Request-URI Too Long"
  else if code = ResponseCode.UNSUPPORTED_MEDIA_TYPE then "415 Unsupported Media Type"
  else if code = ResponseCode.REQUESTED_RANGE_NOT_SATISFIABLE then "416 Requested Range Not Satisfiable"
  else if code = ResponseCode.EXPECTATION_FAILED then "417 Expectation Failed"
  else if code = ResponseCode.I_AM_A_TEAPOT then "418 I'm a teapot"
  else if code = ResponseCode.UNPROCESSABLE_ENTITY then "422 Unprocessable Entity"
  else if code = ResponseCode.LOCKED then "423 Locked"
  else if code = ResponseCode.PRECONDITION_REQUIRED then "428 Precondition Required"
  else if code = ResponseCode.TOO_MANY_REQUESTS then "429 Too Many Requests"
  else if code = ResponseCode.REQUEST_HEADER_FIELDS_TOO_LARGE then "431 Request Header Fields Too Large"
  else if code = ResponseCode.UNAVAILABLE_FOR_LEGAL_REASONS then "451 Unavailable For Legal Reasons"
  else if code = ResponseCode.SERVER_ERROR then "500 Internal Server Error"
  else if code = ResponseCode.NOT_IMPLEMENTED then "501 Not Implemented"
  else if code = ResponseCode.BAD_GATEWAY then "502 Bad Gateway"
  else if code = ResponseCode.SERVICE_UNAVAILABLE then "503 Service Unavailable"
  else if code = ResponseCode.HTTP_VERSION_NOT_SUPPORTED then "505 HTTP Version Not Supported"
  else if code = ResponseCode.BANDWIDTH_LIMIT_EXCEEDED then "509 Bandwidth Limit Exceeded"
  else if code = ResponseCode.NOT_EXTENDED then "510 Not Extended"
  else
    let group : Int := Int.tdiv code 100
    if group = 1 then StringUtils.itoa code ++ " Informational"
    else if group = 2 then StringUtils.itoa code ++ " Success"
    else if group = 3 then StringUtils.itoa code ++ " Redirection"
    else if group = 4 then StringUtils.itoa code ++ " Client error"
    else if group = 5 then StringUtils.itoa code ++ " Server error"
    else StringUtils.itoa code ++ " Unknown"

/-- The function `GeneralResponse::responseCode(std::string const&)`: the number read by
`::atoi(str.c_str())` is mapped by a `switch` to the enumerator of that number, and by
`default:` to `NOT_IMPLEMENTED`. -/
def responseCodeFromString (str : String) : ResponseCode :=
  let number : Int := atoi str
  if number = 100 then ResponseCode.CONTINUE
  else if number = 101 then ResponseCode.SWITCHING_PROTOCOLS
  else if number = 102 then ResponseCode.PROCESSING
  else if number = 200 then ResponseCode.OK
  else if number = 201 then ResponseCode.CREATED
  else if number = 202 then ResponseCode.ACCEPTED
  else if number = 203 then ResponseCode.PARTIAL
  else if number = 204 then ResponseCode.NO_CONTENT
  else if number = 205 then ResponseCode.RESET_CONTENT
  else if number = 206 then ResponseCode.PARTIAL_CONTENT
  else if number = 301 then ResponseCode.MOVED_PERMANENTLY
  else if number = 302 then ResponseCode.FOUND
  else if number = 303 then ResponseCode.SEE_OTHER
  else if number = 304 then ResponseCode.NOT_MODIFIED
  else if number = 307 then ResponseCode.TEMPORARY_REDIRECT
  else if number = 308 then ResponseCode.PERMANENT_REDIRECT
  else if number = 400 then ResponseCode.BAD
  else if number = 401 then ResponseCode.UNAUTHORIZED
  else if number = 402 then ResponseCode.PAYMENT_REQUIRED
  else if number = 403 then ResponseCode.FORBIDDEN
  else if number = 404 then ResponseCode.NOT_FOUND
  else if number = 405 then ResponseCode.METHOD_NOT_ALLOWED
  else if number = 406 then ResponseCode.NOT_ACCEPTABLE
  else if number = 408 then ResponseCode.REQUEST_TIMEOUT
  else if number = 409 then ResponseCode.CONFLICT
  else if number = 410 then ResponseCode.GONE
  else if number = 411 then ResponseCode.LENGTH_REQUIRED
  else if number = 412 then ResponseCode.PRECONDITION_FAILED
  else if number = 413 then ResponseCode.REQUEST_ENTITY_TOO_LARGE
  else if number = 414 then ResponseCode.REQUEST_URI_TOO_LONG
  else if number = 415 then ResponseCode.UNSUPPORTED_MEDIA_TYPE
  else if number = 416 then ResponseCode.REQUESTED_RANGE_NOT_SATISFIABLE
  else if number = 417 then ResponseCode.EXPECTATION_FAILED
  else if number = 418 then ResponseCode.I_AM_A_TEAPOT
  else if number = 422 then ResponseCode.UNPROCESSABLE_ENTITY
  else if number = 423 then ResponseCode.LOCKED
  else if number = 428 then ResponseCode.PRECONDITION_REQUIRED
  else if number = 429 then ResponseCode.TOO_MANY_REQUESTS
  else if number = 431 then ResponseCode.REQUEST_HEADER_FIELDS_TOO_LARGE
  else if number = 451 then ResponseCode.UNAVAILABLE_FOR_LEGAL_REASONS
  else if number = 500 then ResponseCode.SERVER_ERROR
  else if number = 501 then ResponseCode.NOT_IMPLEMENTED
  else if number = 502 then ResponseCode.BAD_GATEWAY
  else if number = 503 then ResponseCode.SERVICE_UNAVAILABLE
  else if number = 505 then ResponseCode.HTTP_VERSION_NOT_SUPPORTED
  else if number = 509 then ResponseCode.BANDWIDTH_LIMIT_EXCEEDED
  else if number = 510 then ResponseCode.NOT_EXTENDED
  else ResponseCode.NOT_IMPLEMENTED

/-- The response-code table of the specification: status number and canonical reason
phrase, in the order of the table. -/
def responseCodeTable : List (Int × String) :=
  [(100, "Continue"),
   (101, "Switching Protocols"),
   (102, "Processing"),
   (200, "OK"),
   (201, "Created"),
   (202, "Accepted"),
   (203, "Non-Authoritative Information"),
   (204, "No Content"),
   (205, "Reset Content"),
   (206, "Partial Content"),
   (301, "Moved Permanently"),
   (302, "Found"),
   (303, "See Other"),
   (304, "Not Modified"),
   (307, "Temporary Redirect"),
   (308, "Permanent Redirect"),
   (400, "Bad Request"),
   (401, "Unauthorized"),
   (402, "Payment Required"),
   (403, "Forbidden"),
   (404, "Not Found"),
   (405, "Method Not Allowed"),
   (406, "Not Acceptable"),
   (408, "Request Timeout"),
   (409, "Conflict"),
   (410, "Gone"),
   (411, "Length Required"),
   (412, "Precondition Failed"),
   (413, "Payload Too Large"),
   (414, "Request-URI Too Long"),
   (415, "Unsupported Media Type"),
   (416, "Requested Range Not Satisfiable"),
   (417, "Expectation Failed"),
   (418, "I'm a teapot"),
   (422, "Unprocessable Entity"),
   (423, "Locked"),
   (428, "Precondition Required"),
   (429, "Too Many Requests"),
   (431, "Request Header Fields Too Large"),
   (451, "Unavailable For Legal Reasons"),
   (500, "Internal Server Error"),
   (501, "Not Implemented"),
   (502, "Bad Gateway"),
   (503, "Service Unavailable"),
   (505, "HTTP Version Not Supported"),
   (509, "Bandwidth Limit Exceeded"),
   (510, "Not Extended")]

/-- The status numbers of the response-code table. -/
def tableCodes : List Int :=
  responseCodeTable.map Prod.fst

/-- The leading (first) decimal digit of a natural number. -/
def leadingDigit (n : Nat) : Nat :=
  if n < 10 then n else leadingDigit (n / 10)
termination_by n
decreasing_by omega

/-- The generic reason phrase of a group number (or leading digit): 1 is informational, 2 is
success, 3 is redirection, 4 is a client error, 5 is a server error, all else is unknown. -/
def genericPhrase (d : Int) : String :=
  if d = 1 then "Informational"
  else if d = 2 then "Success"
  else if d = 3 then "Redirection"
  else if d = 4 then "Client error"
  else if d = 5 then "Server error"
  else "Unknown"

/-- Modelled from the spec: the `TRI_ERROR_*` constants are declared in `Basics/voc-errors.h`,
which is not among the sources at hand, and the specification gives no numbers for
them. Their values are a parameter of the embedding: one field for
`TRI_ERROR_NO_ERROR` and one for every constant named in a `case` label of
`responseCode(int)`. -/
structure ErrorNumbers where
  TRI_ERROR_NO_ERROR : Int
  TRI_ERROR_BAD_PARAMETER : Int
  TRI_ERROR_ARANGO_DATABASE_NAME_INVALID : Int
  TRI_ERROR_ARANGO_DOCUMENT_KEY_BAD : Int
  TRI_ERROR_ARANGO_DOCUMENT_KEY_UNEXPECTED : Int
  TRI_ERROR_ARANGO_DOCUMENT_KEY_MISSING : Int
  TRI_ERROR_ARANGO_DOCUMENT_TYPE_INVALID : Int
  TRI_ERROR_ARANGO_DOCUMENT_HANDLE_BAD : Int
  TRI_ERROR_CLUSTER_MUST_NOT_CHANGE_SHARDING_ATTRIBUTES : Int
  TRI_ERROR_CLUSTER_MUST_NOT_SPECIFY_KEY : Int
  TRI_ERROR_TYPE_ERROR : Int
  TRI_ERROR_QUERY_NUMBER_OUT_OF_RANGE : Int
  TRI_ERROR_QUERY_VARIABLE_NAME_INVALID : Int
  TRI_ERROR_QUERY_VARIABLE_REDECLARED : Int
  TRI_ERROR_QUERY_VARIABLE_NAME_UNKNOWN : Int
  TRI_ERROR_QUERY_TOO_MANY_COLLECTIONS : Int
  TRI_ERROR_QUERY_FUNCTION_NAME_UNKNOWN : Int
  TRI_ERROR_QUERY_FUNCTION_ARGUMENT_NUMBER_MISMATCH : Int
  TRI_ERROR_QUERY_FUNCTION_ARGUMENT_TYPE_MISMATCH : Int
  TRI_ERROR_QUERY_INVALID_REGEX : Int
  TRI_ERROR_QUERY_BIND_PARAMETERS_INVALID : Int
  TRI_ERROR_QUERY_BIND_PARAMETER_MISSING : Int
  TRI_ERROR_QUERY_BIND_PARAMETER_UNDECLARED : Int
  TRI_ERROR_QUERY_BIND_PARAMETER_TYPE : Int
  TRI_ERROR_QUERY_INVALID_LOGICAL_VALUE : Int
  TRI_ERROR_QUERY_INVALID_ARITHMETIC_VALUE : Int
  TRI_ERROR_QUERY_DIVISION_BY_ZERO : Int
  TRI_ERROR_QUERY_ARRAY_EXPECTED : Int
  TRI_ERROR_QUERY_FAIL_CALLED : Int
  TRI_ERROR_QUERY_INVALID_DATE_VALUE : Int
  TRI_ERROR_QUERY_MULTI_MODIFY : Int
  TRI_ERROR_QUERY_COMPILE_TIME_OPTIONS : Int
  TRI_ERROR_QUERY_EXCEPTION_OPTIONS : Int
  TRI_ERROR_QUERY_COLLECTION_USED_IN_EXPRESSION : Int
  TRI_ERROR_QUERY_DISALLOWED_DYNAMIC_CALL : Int
  TRI_ERROR_QUERY_ACCESS_AFTER_MODIFICATION : Int
  TRI_ERROR_QUERY_FUNCTION_INVALID_NAME : Int
  TRI_ERROR_QUERY_FUNCTION_INVALID_CODE : Int
  TRI_ERROR_REPLICATION_INVALID_APPLIER_CONFIGURATION : Int
  TRI_ERROR_REPLICATION_RUNNING : Int
  TRI_ERROR_REPLICATION_NO_START_TICK : Int
  TRI_ERROR_ARANGO_USE_SYSTEM_DATABASE : Int
  TRI_ERROR_ARANGO_INVALID_KEY_GENERATOR : Int
  TRI_ERROR_ARANGO_INVALID_EDGE_ATTRIBUTE : Int
  TRI_ERROR_ARANGO_INDEX_DOCUMENT_ATTRIBUTE_MISSING : Int
  TRI_ERROR_ARANGO_INDEX_CREATION_FAILED : Int
  TRI_ERROR_ARANGO_COLLECTION_TYPE_MISMATCH : Int
  TRI_ERROR_ARANGO_COLLECTION_TYPE_INVALID : Int
  TRI_ERROR_ARANGO_VALIDATION_FAILED : Int
  TRI_ERROR_ARANGO_ATTRIBUTE_PARSER_FAILED : Int
  TRI_ERROR_ARANGO_CROSS_COLLECTION_REQUEST : Int
  TRI_ERROR_ARANGO_INDEX_HANDLE_BAD : Int
  TRI_ERROR_ARANGO_CAP_CONSTRAINT_ALREADY_DEFINED : Int
  TRI_ERROR_ARANGO_DOCUMENT_TOO_LARGE : Int
  TRI_ERROR_QUERY_PARSE : Int
  TRI_ERROR_QUERY_EMPTY : Int
  TRI_ERROR_TRANSACTION_NESTED : Int
  TRI_ERROR_TRANSACTION_UNREGISTERED_COLLECTION : Int
  TRI_ERROR_TRANSACTION_DISALLOWED_OPERATION : Int
  TRI_ERROR_USER_INVALID_NAME : Int
  TRI_ERROR_USER_INVALID_PASSWORD : Int
  TRI_ERROR_TASK_INVALID_ID : Int
  TRI_ERROR_GRAPH_INVALID_GRAPH : Int
  TRI_ERROR_GRAPH_COULD_NOT_CREATE_GRAPH : Int
  TRI_ERROR_GRAPH_INVALID_VERTEX : Int
  TRI_ERROR_GRAPH_COULD_NOT_CREATE_VERTEX : Int
  TRI_ERROR_GRAPH_COULD_NOT_CHANGE_VERTEX : Int
  TRI_ERROR_GRAPH_INVALID_EDGE : Int
  TRI_ERROR_GRAPH_COULD_NOT_CREATE_EDGE : Int
  TRI_ERROR_GRAPH_COULD_NOT_CHANGE_EDGE : Int
  TRI_ERROR_GRAPH_COLLECTION_MULTI_USE : Int
  TRI_ERROR_GRAPH_COLLECTION_USE_IN_MULTI_GRAPHS : Int
  TRI_ERROR_GRAPH_CREATE_MISSING_NAME : Int
  TRI_ERROR_GRAPH_CREATE_MALFORMED_EDGE_DEFINITION : Int
  TRI_ERROR_GRAPH_WRONG_COLLECTION_TYPE_VERTEX : Int
  TRI_ERROR_GRAPH_NOT_IN_ORPHAN_COLLECTION : Int
  TRI_ERROR_GRAPH_COLLECTION_USED_IN_EDGE_DEF : Int
  TRI_ERROR_GRAPH_EDGE_COLLECTION_NOT_USED : Int
  TRI_ERROR_GRAPH_NOT_AN_ARANGO_COLLECTION : Int
  TRI_ERROR_GRAPH_INVALID_EXAMPLE_ARRAY_OBJECT_STRING : Int
  TRI_ERROR_GRAPH_INVALID_EXAMPLE_ARRAY_OBJECT : Int
  TRI_ERROR_GRAPH_INVALID_NUMBER_OF_ARGUMENTS : Int
  TRI_ERROR_GRAPH_INVALID_PARAMETER : Int
  TRI_ERROR_GRAPH_INVALID_ID : Int
  TRI_ERROR_GRAPH_COLLECTION_USED_IN_ORPHANS : Int
  TRI_ERROR_GRAPH_EDGE_COL_DOES_NOT_EXIST : Int
  TRI_ERROR_ARANGO_READ_ONLY : Int
  TRI_ERROR_ARANGO_DATABASE_NOT_FOUND : Int
  TRI_ERROR_ARANGO_COLLECTION_NOT_FOUND : Int
  TRI_ERROR_ARANGO_COLLECTION_NOT_LOADED : Int
  TRI_ERROR_ARANGO_DOCUMENT_NOT_FOUND : Int
  TRI_ERROR_ARANGO_ENDPOINT_NOT_FOUND : Int
  TRI_ERROR_ARANGO_INDEX_NOT_FOUND : Int
  TRI_ERROR_CURSOR_NOT_FOUND : Int
  TRI_ERROR_QUERY_FUNCTION_NOT_FOUND : Int
  TRI_ERROR_QUERY_GEO_INDEX_MISSING : Int
  TRI_ERROR_QUERY_FULLTEXT_INDEX_MISSING : Int
  TRI_ERROR_QUERY_NOT_FOUND : Int
  TRI_ERROR_USER_NOT_FOUND : Int
  TRI_ERROR_TASK_NOT_FOUND : Int
  TRI_ERROR_GRAPH_NOT_FOUND : Int
  TRI_ERROR_GRAPH_VERTEX_COL_DOES_NOT_EXIST : Int
  TRI_ERROR_GRAPH_NO_GRAPH_COLLECTION : Int
  TRI_ERROR_QUEUE_UNKNOWN : Int
  TRI_ERROR_REQUEST_CANCELED : Int
  TRI_ERROR_QUERY_KILLED : Int
  TRI_ERROR_TRANSACTION_ABORTED : Int
  TRI_ERROR_ARANGO_CONFLICT : Int
  TRI_ERROR_ARANGO_UNIQUE_CONSTRAINT_VIOLATED : Int
  TRI_ERROR_CURSOR_BUSY : Int
  TRI_ERROR_USER_DUPLICATE : Int
  TRI_ERROR_TASK_DUPLICATE_ID : Int
  TRI_ERROR_GRAPH_DUPLICATE : Int
  TRI_ERROR_QUEUE_ALREADY_EXISTS : Int
  TRI_ERROR_DEADLOCK : Int
  TRI_ERROR_ARANGO_OUT_OF_KEYS : Int
  TRI_ERROR_CLUSTER_SHARD_GONE : Int
  TRI_ERROR_CLUSTER_TIMEOUT : Int
  TRI_ERROR_OUT_OF_MEMORY : Int
  TRI_ERROR_INTERNAL : Int
  TRI_ERROR_CLUSTER_BACKEND_UNAVAILABLE : Int
  TRI_ERROR_CLUSTER_UNSUPPORTED : Int

/-- The `case` labels of `responseCode(int)` that return `ResponseCode::BAD`. -/
def ErrorNumbers.labelsBAD (E : ErrorNumbers) : List Int :=
  [E.TRI_ERROR_BAD_PARAMETER, E.TRI_ERROR_ARANGO_DATABASE_NAME_INVALID,
   E.TRI_ERROR_ARANGO_DOCUMENT_KEY_BAD, E.TRI_ERROR_ARANGO_DOCUMENT_KEY_UNEXPECTED,
   E.TRI_ERROR_ARANGO_DOCUMENT_KEY_MISSING, E.TRI_ERROR_ARANGO_DOCUMENT_TYPE_INVALID,
   E.TRI_ERROR_ARANGO_DOCUMENT_HANDLE_BAD,
   E.TRI_ERROR_CLUSTER_MUST_NOT_CHANGE_SHARDING_ATTRIBUTES,
   E.TRI_ERROR_CLUSTER_MUST_NOT_SPECIFY_KEY, E.TRI_ERROR_TYPE_ERROR,
   E.TRI_ERROR_QUERY_NUMBER_OUT_OF_RANGE, E.TRI_ERROR_QUERY_VARIABLE_NAME_INVALID,
   E.TRI_ERROR_QUERY_VARIABLE_REDECLARED, E.TRI_ERROR_QUERY_VARIABLE_NAME_UNKNOWN,
   E.TRI_ERROR_QUERY_TOO_MANY_COLLECTIONS, E.TRI_ERROR_QUERY_FUNCTION_NAME_UNKNOWN,
   E.TRI_ERROR_QUERY_FUNCTION_ARGUMENT_NUMBER_MISMATCH,
   E.TRI_ERROR_QUERY_FUNCTION_ARGUMENT_TYPE_MISMATCH, E.TRI_ERROR_QUERY_INVALID_REGEX,
   E.TRI_ERROR_QUERY_BIND_PARAMETERS_INVALID, E.TRI_ERROR_QUERY_BIND_PARAMETER_MISSING,
   E.TRI_ERROR_QUERY_BIND_PARAMETER_UNDECLARED, E.TRI_ERROR_QUERY_BIND_PARAMETER_TYPE,
   E.TRI_ERROR_QUERY_INVALID_LOGICAL_VALUE, E.TRI_ERROR_QUERY_INVALID_ARITHMETIC_VALUE,
   E.TRI_ERROR_QUERY_DIVISION_BY_ZERO, E.TRI_ERROR_QUERY_ARRAY_EXPECTED,
   E.TRI_ERROR_QUERY_FAIL_CALLED, E.TRI_ERROR_QUERY_INVALID_DATE_VALUE,
   E.TRI_ERROR_QUERY_MULTI_MODIFY, E.TRI_ERROR_QUERY_COMPILE_TIME_OPTIONS,
   E.TRI_ERROR_QUERY_EXCEPTION_OPTIONS, E.TRI_ERROR_QUERY_COLLECTION_USED_IN_EXPRESSION,
   E.TRI_ERROR_QUERY_DISALLOWED_DYNAMIC_CALL, E.TRI_ERROR_QUERY_ACCESS_AFTER_MODIFICATION,
   E.TRI_ERROR_QUERY_FUNCTION_INVALID_NAME, E.TRI_ERROR_QUERY_FUNCTION_INVALID_CODE,
   E.TRI_ERROR_REPLICATION_INVALID_APPLIER_CONFIGURATION, E.TRI_ERROR_REPLICATION_RUNNING,
   E.TRI_ERROR_REPLICATION_NO_START_TICK, E.TRI_ERROR_ARANGO_USE_SYSTEM_DATABASE,
   E.TRI_ERROR_ARANGO_INVALID_KEY_GENERATOR, E.TRI_ERROR_ARANGO_INVALID_EDGE_ATTRIBUTE,
   E.TRI_ERROR_ARANGO_INDEX_DOCUMENT_ATTRIBUTE_MISSING,
   E.TRI_ERROR_ARANGO_INDEX_CREATION_FAILED, E.TRI_ERROR_ARANGO_COLLECTION_TYPE_MISMATCH,
   E.TRI_ERROR_ARANGO_COLLECTION_TYPE_INVALID, E.TRI_ERROR_ARANGO_VALIDATION_FAILED,
   E.TRI_ERROR_ARANGO_ATTRIBUTE_PARSER_FAILED,
   E.TRI_ERROR_ARANGO_CROSS_COLLECTION_REQUEST, E.TRI_ERROR_ARANGO_INDEX_HANDLE_BAD,
   E.TRI_ERROR_ARANGO_CAP_CONSTRAINT_ALREADY_DEFINED,
   E.TRI_ERROR_ARANGO_DOCUMENT_TOO_LARGE, E.TRI_ERROR_QUERY_PARSE,
   E.TRI_ERROR_QUERY_EMPTY, E.TRI_ERROR_TRANSACTION_NESTED,
   E.TRI_ERROR_TRANSACTION_UNREGISTERED_COLLECTION,
   E.TRI_ERROR_TRANSACTION_DISALLOWED_OPERATION, E.TRI_ERROR_USER_INVALID_NAME,
   E.TRI_ERROR_USER_INVALID_PASSWORD, E.TRI_ERROR_TASK_INVALID_ID,
   E.TRI_ERROR_GRAPH_INVALID_GRAPH, E.TRI_ERROR_GRAPH_COULD_NOT_CREATE_GRAPH,
   E.TRI_ERROR_GRAPH_INVALID_VERTEX, E.TRI_ERROR_GRAPH_COULD_NOT_CREATE_VERTEX,
   E.TRI_ERROR_GRAPH_COULD_NOT_CHANGE_VERTEX, E.TRI_ERROR_GRAPH_INVALID_EDGE,
   E.TRI_ERROR_GRAPH_COULD_NOT_CREATE_EDGE, E.TRI_ERROR_GRAPH_COULD_NOT_CHANGE_EDGE,
   E.TRI_ERROR_GRAPH_COLLECTION_MULTI_USE,
   E.TRI_ERROR_GRAPH_COLLECTION_USE_IN_MULTI_GRAPHS,
   E.TRI_ERROR_GRAPH_CREATE_MISSING_NAME,
   E.TRI_ERROR_GRAPH_CREATE_MALFORMED_EDGE_DEFINITION,
   E.TRI_ERROR_GRAPH_WRONG_COLLECTION_TYPE_VERTEX,
   E.TRI_ERROR_GRAPH_NOT_IN_ORPHAN_COLLECTION,
   E.TRI_ERROR_GRAPH_COLLECTION_USED_IN_EDGE_DEF,
   E.TRI_ERROR_GRAPH_EDGE_COLLECTION_NOT_USED, E.TRI_ERROR_GRAPH_NOT_AN_ARANGO_COLLECTION,
   E.TRI_ERROR_GRAPH_INVALID_EXAMPLE_ARRAY_OBJECT_STRING,
   E.TRI_ERROR_GRAPH_INVALID_EXAMPLE_ARRAY_OBJECT,
   E.TRI_ERROR_GRAPH_INVALID_NUMBER_OF_ARGUMENTS, E.TRI_ERROR_GRAPH_INVALID_PARAMETER,
   E.TRI_ERROR_GRAPH_INVALID_ID, E.TRI_ERROR_GRAPH_COLLECTION_USED_IN_ORPHANS,
   E.TRI_ERROR_GRAPH_EDGE_COL_DOES_NOT_EXIST]

/-- The `case` label that returns `ResponseCode::FORBIDDEN`. -/
def ErrorNumbers.labelsFORBIDDEN (E : ErrorNumbers) : List Int :=
  [E.TRI_ERROR_ARANGO_READ_ONLY]

/-- The `case` labels that return `ResponseCode::NOT_FOUND`. -/
def ErrorNumbers.labelsNOT_FOUND (E : ErrorNumbers) : List Int :=
  [E.TRI_ERROR_ARANGO_DATABASE_NOT_FOUND, E.TRI_ERROR_ARANGO_COLLECTION_NOT_FOUND,
   E.TRI_ERROR_ARANGO_COLLECTION_NOT_LOADED, E.TRI_ERROR_ARANGO_DOCUMENT_NOT_FOUND,
   E.TRI_ERROR_ARANGO_ENDPOINT_NOT_FOUND, E.TRI_ERROR_ARANGO_INDEX_NOT_FOUND,
   E.TRI_ERROR_CURSOR_NOT_FOUND, E.TRI_ERROR_QUERY_FUNCTION_NOT_FOUND,
   E.TRI_ERROR_QUERY_GEO_INDEX_MISSING, E.TRI_ERROR_QUERY_FULLTEXT_INDEX_MISSING,
   E.TRI_ERROR_QUERY_NOT_FOUND, E.TRI_ERROR_USER_NOT_FOUND, E.TRI_ERROR_TASK_NOT_FOUND,
   E.TRI_ERROR_GRAPH_NOT_FOUND, E.TRI_ERROR_GRAPH_VERTEX_COL_DOES_NOT_EXIST,
   E.TRI_ERROR_GRAPH_NO_GRAPH_COLLECTION, E.TRI_ERROR_QUEUE_UNKNOWN]

/-- The `case` labels that return `ResponseCode::GONE`. -/
def ErrorNumbers.labelsGONE (E : ErrorNumbers) : List Int :=
  [E.TRI_ERROR_REQUEST_CANCELED, E.TRI_ERROR_QUERY_KILLED,
   E.TRI_ERROR_TRANSACTION_ABORTED]

/-- The `case` labels that return `ResponseCode::CONFLICT`. -/
def ErrorNumbers.labelsCONFLICT (E : ErrorNumbers) : List Int :=
  [E.TRI_ERROR_ARANGO_CONFLICT, E.TRI_ERROR_ARANGO_UNIQUE_CONSTRAINT_VIOLATED,
   E.TRI_ERROR_CURSOR_BUSY, E.TRI_ERROR_USER_DUPLICATE, E.TRI_ERROR_TASK_DUPLICATE_ID,
   E.TRI_ERROR_GRAPH_DUPLICATE, E.TRI_ERROR_QUEUE_ALREADY_EXISTS]

/-- The `case` labels that return `ResponseCode::SERVER_ERROR` explicitly. -/
def ErrorNumbers.labelsSERVER_ERROR (E : ErrorNumbers) : List Int :=
  [E.TRI_ERROR_DEADLOCK, E.TRI_ERROR_ARANGO_OUT_OF_KEYS, E.TRI_ERROR_CLUSTER_SHARD_GONE,
   E.TRI_ERROR_CLUSTER_TIMEOUT, E.TRI_ERROR_OUT_OF_MEMORY, E.TRI_ERROR_INTERNAL]

/-- The `case` label that returns `ResponseCode::SERVICE_UNAVAILABLE`. -/
def ErrorNumbers.labelsSERVICE_UNAVAILABLE (E : ErrorNumbers) : List Int :=
  [E.TRI_ERROR_CLUSTER_BACKEND_UNAVAILABLE]

/-- The `case` label that returns `ResponseCode::NOT_IMPLEMENTED`. -/
def ErrorNumbers.labelsNOT_IMPLEMENTED (E : ErrorNumbers) : List Int :=
  [E.TRI_ERROR_CLUSTER_UNSUPPORTED]

/-- All `case` labels of the `switch` in `responseCode(int)`, in source order. -/
def ErrorNumbers.caseLabels (E : ErrorNumbers) : List Int :=
  E.labelsBAD ++ E.labelsFORBIDDEN ++ E.labelsNOT_FOUND ++ E.labelsGONE ++ E.labelsCONFLICT ++
    E.labelsSERVER_ERROR ++ E.labelsSERVICE_UNAVAILABLE ++ E.labelsNOT_IMPLEMENTED

/-- The `switch` of `GeneralResponse::responseCode(int)`: each group of `case` labels returns
its status, `default:` returns `SERVER_ERROR`. -/
def responseCodeSwitch (E : ErrorNumbers) (code : Int) : ResponseCode :=
  if code ∈ E.labelsBAD then ResponseCode.BAD
  else if code ∈ E.labelsFORBIDDEN then ResponseCode.FORBIDDEN
  else if code ∈ E.labelsNOT_FOUND then ResponseCode.NOT_FOUND
  else if code ∈ E.labelsGONE then ResponseCode.GONE
  else if code ∈ E.labelsCONFLICT then ResponseCode.CONFLICT
  else if code ∈ E.labelsSERVER_ERROR then ResponseCode.SERVER_ERROR
  else if code ∈ E.labelsSERVICE_UNAVAILABLE then ResponseCode.SERVICE_UNAVAILABLE
  else if code ∈ E.labelsNOT_IMPLEMENTED then ResponseCode.NOT_IMPLEMENTED
  else ResponseCode.SERVER_ERROR

/-- The function `GeneralResponse::responseCode(int)`. It starts with
`TRI_ASSERT(code != TRI_ERROR_NO_ERROR)`. The macro `TRI_ASSERT` is not among the sources
at hand; it is taken as an active assertion: when its condition is false the assertion
fails and the call is aborted, which is the result `none`. -/
def responseCode (E : ErrorNumbers) (code : Int) : Option ResponseCode :=
  if code = E.TRI_ERROR_NO_ERROR then none else some (responseCodeSwitch E code)

/-- A sample numbering of the error constants: `TRI_ERROR_NO_ERROR` is 0 and the constants
of the `case` labels are numbered 1, 2, 3, ... in source order. -/
def sampleErrorNumbers : ErrorNumbers where
  TRI_ERROR_NO_ERROR := 0
  TRI_ERROR_BAD_PARAMETER := 1
  TRI_ERROR_ARANGO_DATABASE_NAME_INVALID := 2
  TRI_ERROR_ARANGO_DOCUMENT_KEY_BAD := 3
  TRI_ERROR_ARANGO_DOCUMENT_KEY_UNEXPECTED := 4
  TRI_ERROR_ARANGO_DOCUMENT_KEY_MISSING := 5
  TRI_ERROR_ARANGO_DOCUMENT_TYPE_INVALID := 6
  TRI_ERROR_ARANGO_DOCUMENT_HANDLE_BAD := 7
  TRI_ERROR_CLUSTER_MUST_NOT_CHANGE_SHARDING_ATTRIBUTES := 8
  TRI_ERROR_CLUSTER_MUST_NOT_SPECIFY_KEY := 9
  TRI_ERROR_TYPE_ERROR := 10
  TRI_ERROR_QUERY_NUMBER_OUT_OF_RANGE := 11
  TRI_ERROR_QUERY_VARIABLE_NAME_INVALID := 12
  TRI_ERROR_QUERY_VARIABLE_REDECLARED := 13
  TRI_ERROR_QUERY_VARIABLE_NAME_UNKNOWN := 14
  TRI_ERROR_QUERY_TOO_MANY_COLLECTIONS := 15
  TRI_ERROR_QUERY_FUNCTION_NAME_UNKNOWN := 16
  TRI_ERROR_QUERY_FUNCTION_ARGUMENT_NUMBER_MISMATCH := 17
  TRI_ERROR_QUERY_FUNCTION_ARGUMENT_TYPE_MISMATCH := 18
  TRI_ERROR_QUERY_INVALID_REGEX := 19
  TRI_ERROR_QUERY_BIND_PARAMETERS_INVALID := 20
  TRI_ERROR_QUERY_BIND_PARAMETER_MISSING := 21
  TRI_ERROR_QUERY_BIND_PARAMETER_UNDECLARED := 22
  TRI_ERROR_QUERY_BIND_PARAMETER_TYPE := 23
  TRI_ERROR_QUERY_INVALID_LOGICAL_VALUE := 24
  TRI_ERROR_QUERY_INVALID_ARITHMETIC_VALUE := 25
  TRI_ERROR_QUERY_DIVISION_BY_ZERO := 26
  TRI_ERROR_QUERY_ARRAY_EXPECTED := 27
  TRI_ERROR_QUERY_FAIL_CALLED := 28
  TRI_ERROR_QUERY_INVALID_DATE_VALUE := 29
  TRI_ERROR_QUERY_MULTI_MODIFY := 30
  TRI_ERROR_QUERY_COMPILE_TIME_OPTIONS := 31
  TRI_ERROR_QUERY_EXCEPTION_OPTIONS := 32
  TRI_ERROR_QUERY_COLLECTION_USED_IN_EXPRESSION := 33
  TRI_ERROR_QUERY_DISALLOWED_DYNAMIC_CALL := 34
  TRI_ERROR_QUERY_ACCESS_AFTER_MODIFICATION := 35
  TRI_ERROR_QUERY_FUNCTION_INVALID_NAME := 36
  TRI_ERROR_QUERY_FUNCTION_INVALID_CODE := 37
  TRI_ERROR_REPLICATION_INVALID_APPLIER_CONFIGURATION := 38
  TRI_ERROR_REPLICATION_RUNNING := 39
  TRI_ERROR_REPLICATION_NO_START_TICK := 40
  TRI_ERROR_ARANGO_USE_SYSTEM_DATABASE := 41
  TRI_ERROR_ARANGO_INVALID_KEY_GENERATOR := 42
  TRI_ERROR_ARANGO_INVALID_EDGE_ATTRIBUTE := 43
  TRI_ERROR_ARANGO_INDEX_DOCUMENT_ATTRIBUTE_MISSING := 44
  TRI_ERROR_ARANGO_INDEX_CREATION_FAILED := 45
  TRI_ERROR_ARANGO_COLLECTION_TYPE_MISMATCH := 46
  TRI_ERROR_ARANGO_COLLECTION_TYPE_INVALID := 47
  TRI_ERROR_ARANGO_VALIDATION_FAILED := 48
  TRI_ERROR_ARANGO_ATTRIBUTE_PARSER_FAILED := 49
  TRI_ERROR_ARANGO_CROSS_COLLECTION_REQUEST := 50
  TRI_ERROR_ARANGO_INDEX_HANDLE_BAD := 51
  TRI_ERROR_ARANGO_CAP_CONSTRAINT_ALREADY_DEFINED := 52
  TRI_ERROR_ARANGO_DOCUMENT_TOO_LARGE := 53
  TRI_ERROR_QUERY_PARSE := 54
  TRI_ERROR_QUERY_EMPTY := 55
  TRI_ERROR_TRANSACTION_NESTED := 56
  TRI_ERROR_TRANSACTION_UNREGISTERED_COLLECTION := 57
  TRI_ERROR_TRANSACTION_DISALLOWED_OPERATION := 58
  TRI_ERROR_USER_INVALID_NAME := 59
  TRI_ERROR_USER_INVALID_PASSWORD := 60
  TRI_ERROR_TASK_INVALID_ID := 61
  TRI_ERROR_GRAPH_INVALID_GRAPH := 62
  TRI_ERROR_GRAPH_COULD_NOT_CREATE_GRAPH := 63
  TRI_ERROR_GRAPH_INVALID_VERTEX := 64
  TRI_ERROR_GRAPH_COULD_NOT_CREATE_VERTEX := 65
  TRI_ERROR_GRAPH_COULD_NOT_CHANGE_VERTEX := 66
  TRI_ERROR_GRAPH_INVALID_EDGE := 67
  TRI_ERROR_GRAPH_COULD_NOT_CREATE_EDGE := 68
  TRI_ERROR_GRAPH_COULD_NOT_CHANGE_EDGE := 69
  TRI_ERROR_GRAPH_COLLECTION_MULTI_USE := 70
  TRI_ERROR_GRAPH_COLLECTION_USE_IN_MULTI_GRAPHS := 71
  TRI_ERROR_GRAPH_CREATE_MISSING_NAME := 72
  TRI_ERROR_GRAPH_CREATE_MALFORMED_EDGE_DEFINITION := 73
  TRI_ERROR_GRAPH_WRONG_COLLECTION_TYPE_VERTEX := 74
  TRI_ERROR_GRAPH_NOT_IN_ORPHAN_COLLECTION := 75
  TRI_ERROR_GRAPH_COLLECTION_USED_IN_EDGE_DEF := 76
  TRI_ERROR_GRAPH_EDGE_COLLECTION_NOT_USED := 77
  TRI_ERROR_GRAPH_NOT_AN_ARANGO_COLLECTION := 78
  TRI_ERROR_GRAPH_INVALID_EXAMPLE_ARRAY_OBJECT_STRING := 79
  TRI_ERROR_GRAPH_INVALID_EXAMPLE_ARRAY_OBJECT := 80
  TRI_ERROR_GRAPH_INVALID_NUMBER_OF_ARGUMENTS := 81
  TRI_ERROR_GRAPH_INVALID_PARAMETER := 82
  TRI_ERROR_GRAPH_INVALID_ID := 83
  TRI_ERROR_GRAPH_COLLECTION_USED_IN_ORPHANS := 84
  TRI_ERROR_GRAPH_EDGE_COL_DOES_NOT_EXIST := 85
  TRI_ERROR_ARANGO_READ_ONLY := 86
  TRI_ERROR_ARANGO_DATABASE_NOT_FOUND := 87
  TRI_ERROR_ARANGO_COLLECTION_NOT_FOUND := 88
  TRI_ERROR_ARANGO_COLLECTION_NOT_LOADED := 89
  TRI_ERROR_ARANGO_DOCUMENT_NOT_FOUND := 90
  TRI_ERROR_ARANGO_ENDPOINT_NOT_FOUND := 91
  TRI_ERROR_ARANGO_INDEX_NOT_FOUND := 92
  TRI_ERROR_CURSOR_NOT_FOUND := 93
  TRI_ERROR_QUERY_FUNCTION_NOT_FOUND := 94
  TRI_ERROR_QUERY_GEO_INDEX_MISSING := 95
  TRI_ERROR_QUERY_FULLTEXT_INDEX_MISSING := 96
  TRI_ERROR_QUERY_NOT_FOUND := 97
  TRI_ERROR_USER_NOT_FOUND := 98
  TRI_ERROR_TASK_NOT_FOUND := 99
  TRI_ERROR_GRAPH_NOT_FOUND := 100
  TRI_ERROR_GRAPH_VERTEX_COL_DOES_NOT_EXIST := 101
  TRI_ERROR_GRAPH_NO_GRAPH_COLLECTION := 102
  TRI_ERROR_QUEUE_UNKNOWN := 103
  TRI_ERROR_REQUEST_CANCELED := 104
  TRI_ERROR_QUERY_KILLED := 105
  TRI_ERROR_TRANSACTION_ABORTED := 106
  TRI_ERROR_ARANGO_CONFLICT := 107
  TRI_ERROR_ARANGO_UNIQUE_CONSTRAINT_VIOLATED := 108
  TRI_ERROR_CURSOR_BUSY := 109
  TRI_ERROR_USER_DUPLICATE := 110
  TRI_ERROR_TASK_DUPLICATE_ID := 111
  TRI_ERROR_GRAPH_DUPLICATE := 112
  TRI_ERROR_QUEUE_ALREADY_EXISTS := 113
  TRI_ERROR_DEADLOCK := 114
  TRI_ERROR_ARANGO_OUT_OF_KEYS := 115
  TRI_ERROR_CLUSTER_SHARD_GONE := 116
  TRI_ERROR_CLUSTER_TIMEOUT := 117
  TRI_ERROR_OUT_OF_MEMORY := 118
  TRI_ERROR_INTERNAL := 119
  TRI_ERROR_CLUSTER_BACKEND_UNAVAILABLE := 120
  TRI_ERROR_CLUSTER_UNSUPPORTED := 121

/-- Modelled from the spec: the member `_headers` is declared in `GeneralResponse.h`, which is not
among the sources at hand: a map from header name to header value with unique keys.
It is embedded as a list of entries. -/
abbrev HeaderMap := List (String × String)

/-- The lookup `_headers.find(k)`: the value stored under exactly the key `k`, if any. -/
def HeaderMap.find (m : HeaderMap) (k : String) : Option String :=
  match m with
  | [] => none
  | e :: rest => if e.1 = k then some e.2 else HeaderMap.find rest k

/-- The assignment `_headers[k] = v`: afterwards the map holds one entry for `k`, with value
`v`; the entries of all other keys are kept. -/
def HeaderMap.assign (m : HeaderMap) (k v : String) : HeaderMap :=
  (k, v) :: m.filter (fun e => decide (e.1 ≠ k))

end GeneralResponse

/-- The state of a `GeneralResponse` object: the members `_responseCode`,
`_apiCompatibility` (a `uint32_t`) and `_headers`. -/
structure GeneralResponse where
  _responseCode : GeneralResponse.ResponseCode
  _apiCompatibility : Nat
  _headers : GeneralResponse.HeaderMap

namespace GeneralResponse

/-- The constructor `GeneralResponse(ResponseCode, uint32_t)`: it sets the response code and
the compatibility and leaves the header map empty. -/
def new (responseCode : ResponseCode) (compatibility : Nat) : GeneralResponse :=
  { _responseCode := responseCode, _apiCompatibility := compatibility, _headers := [] }

/-- The one-argument `GeneralResponse::header(key)`: looks up the lowercased key, and returns
the empty string when there is no such entry. -/
def header (r : GeneralResponse) (key : String) : String :=
  let k := StringUtils.tolower key
  match r._headers.find k with
  | none => ""
  | some value => value

/-- The two-argument `GeneralResponse::header(key, found)`: the returned string together with
the value left in the out-parameter `found`. -/
def headerFound (r : GeneralResponse) (key : String) : String × Bool :=
  let k := StringUtils.tolower key
  match r._headers.find k with
  | none => ("", false)
  | some value => (value, true)

/-- The function `GeneralResponse::setHeader(key, value)`: computes the lowercased key `k`, and
then assigns `_headers[key] = value`. -/
def setHeader (r : GeneralResponse) (key value : String) : GeneralResponse :=
  let _k := StringUtils.tolower key
  { r with _headers := r._headers.assign key value }

/-- The function `GeneralResponse::setHeaderNC(key, value)`: computes the lowercased key `k`,
and then assigns `_headers[key] = value`. -/
def setHeaderNC (r : GeneralResponse) (key value : String) : GeneralResponse :=
  let _k := StringUtils.tolower key
  { r with _headers := r._headers.assign key value }

end GeneralResponse

/-! ## HttpCommTask -/

/-- Modelled from the spec: `basics::StringBuffer` (from `Basics/StringBuffer.h`, not among the
sources at hand) is a buffer of bytes; it is embedded as the list of its characters. -/
abbrev StringBuffer := List Char

/-- Modelled from the spec: the members of `HttpCommTask` that take part in the chunked
framing. Only the header `HttpCommTask.h` is at hand, the member functions are defined
elsewhere. `_writeBuffers` is the write queue of the header (a `std::deque`, written to
the socket from the front, filled at the back) and `_isChunked` its flag "true if
within a chunked response". -/
structure HttpCommTask where
  _writeBuffers : List StringBuffer
  _isChunked : Bool

namespace HttpCommTask

/-- Modelled from the spec: the task of a fresh connection (the constructor of `HttpCommTask`
is not at hand): nothing is queued. -/
def fresh : HttpCommTask :=
  { _writeBuffers := [], _isChunked := false }

/-- The hexadecimal digit of a number below 16, in lower case. -/
def hexDigit (d : Nat) : Char :=
  if d < 10 then Char.ofNat (d + 48) else Char.ofNat (d + 87)

/-- The hexadecimal digits of `n` put in front of `acc`, most significant first. -/
def toHexAux : Nat → Nat → List Char → List Char
  | 0, _, acc => acc
  | fuel + 1, n, acc =>
    if n < 16 then hexDigit n :: acc
    else toHexAux fuel (n / 16) (hexDigit (n % 16) :: acc)

/-- Modelled from the spec: the `<hex-length>` of a chunk (the formatting code is not at hand):
the length in hexadecimal, without leading zeros, "0" for zero. -/
def toHex (n : Nat) : List Char :=
  toHexAux (n + 1) n []

/-- Modelled from the spec: the framing of one chunk (code not at hand): a chunk is emitted as
`<hex-length>\r\n<bytes>\r\n`. -/
def frameChunk (buffer : StringBuffer) : StringBuffer :=
  toHex buffer.length ++ ['\r', '\n'] ++ buffer ++ ['\r', '\n']

/-- Modelled from the spec: the terminator of a chunked body, `0\r\n\r\n`. -/
def chunkTerminator : StringBuffer :=
  ['0', '\r', '\n', '\r', '\n']

/-- Modelled from the spec: `HttpCommTask::sendChunk` (defined in `HttpCommTask.cpp`, not at
hand) enqueues one framed chunk immediately. -/
def sendChunk (t : HttpCommTask) (buffer : StringBuffer) : HttpCommTask :=
  { t with _writeBuffers := t._writeBuffers ++ [frameChunk buffer] }

/-- Modelled from the spec: `HttpCommTask::finishedChunked` (defined in `HttpCommTask.cpp`, not
at hand) enqueues the terminator and leaves the chunked state. -/
def finishedChunked (t : HttpCommTask) : HttpCommTask :=
  { t with _writeBuffers := t._writeBuffers ++ [chunkTerminator], _isChunked := false }

/-- The value of a hexadecimal digit, of either case. -/
def hexValue (c : Char) : Option Nat :=
  if '0' ≤ c ∧ c ≤ '9' then some (c.toNat - 48)
  else if 'a' ≤ c ∧ c ≤ 'f' then some (c.toNat - 87)
  else if 'A' ≤ c ∧ c ≤ 'F' then some (c.toNat - 55)
  else none

/-- Reads hexadecimal digits from the front of the input: the number read, starting from
`acc`, and the rest of the input. -/
def readHex (acc : Nat) : List Char → Nat × List Char
  | [] => (acc, [])
  | c :: cs =>
    match hexValue c with
    | some d => readHex (acc * 16 + d) cs
    | none => (acc, c :: cs)

/-- The decoder of a chunked body (HTTP/1.1 chunked transfer coding, without chunk
extensions and trailers): a size line in hexadecimal, then for size 0 the closing
`\r\n` that ends the body, else that many bytes and `\r\n`, and on to the next chunk.
`fuel` bounds the number of chunks. -/
def decodeChunkedAux : Nat → List Char → Option (List Char)
  | 0, _ => none
  | fuel + 1, input =>
    match input with
    | [] => none
    | c :: _ =>
      if (hexValue c).isNone then none
      else
        match readHex 0 input with
        | (size, '\r' :: '\n' :: rest) =>
          if size = 0 then
            match rest with
            | '\r' :: '\n' :: _ => some []
            | _ => none
          else if rest.length < size then none
          else
            match rest.drop size with
            | '\r' :: '\n' :: more =>
              (decodeChunkedAux fuel more).map (fun body => rest.take size ++ body)
            | _ => none
        | _ => none

/-- The body decoded from a chunked stream; every chunk takes at least one byte of the
stream, so its length is fuel enough. -/
def decodeChunked (wire : List Char) : Option (List Char) :=
  decodeChunkedAux wire.length wire

end HttpCommTask

/-! ## Theorems -/

namespace GeneralResponse

/-! ### Status strings -/

theorem responseString_default (code : Int) (h : code ∉ tableCodes) :
    responseString code
      = StringUtils.itoa code ++ " " ++ genericPhrase (Int.tdiv code 100) := by
  simp only [tableCodes, responseCodeTable, List.map, List.mem_cons, List.mem_singleton,
    not_or, List.not_mem_nil, not_false_eq_true, and_true] at h
  obtain ⟨h1, h2, h3, h4, h5, h6, h7, h8, h9, h10, h11, h12, h13, h14, h15, h16, h17, h18, h19,
    h20, h21, h22, h23, h24, h25, h26, h27, h28, h29, h30, h31, h32, h33, h34, h35, h36, h37,
    h38, h39, h40, h41, h42, h43, h44, h45, h46, h47⟩ := h
  simp only [responseString, if_neg h1, if_neg h2, if_neg h3, if_neg h4, if_neg h5, if_neg h6,
    if_neg h7, if_neg h8, if_neg h9, if_neg h10, if_neg h11, if_neg h12, if_neg h13, if_neg h14,
    if_neg h15, if_neg h16, if_neg h17, if_neg h18, if_neg h19, if_neg h20, if_neg h21,
    if_neg h22, if_neg h23, if_neg h24, if_neg h25, if_neg h26, if_neg h27, if_neg h28,
    if_neg h29, if_neg h30, if_neg h31, if_neg h32, if_neg h33, if_neg h34, if_neg h35,
    if_neg h36, if_neg h37, if_neg h38, if_neg h39, if_neg h40, if_neg h41, if_neg h42,
    if_neg h43, if_neg h44, if_neg h45, if_neg h46, if_neg h47, genericPhrase]
  split_ifs <;> simp [String.append_assoc]

theorem tdiv_hundred (a : Int) :
    Int.tdiv a 100 = if 0 ≤ a then a / 100 else -((-a) / 100) := by
  split_ifs with h
  · exact Int.tdiv_eq_ediv h (by omega)
  · have h2 : (-a).tdiv 100 = (-a) / 100 := Int.tdiv_eq_ediv (by omega) (by omega)
    rw [Int.neg_tdiv] at h2
    omega

theorem leadingDigit_three_digits (n : Nat) (h1 : 100 ≤ n) (h2 : n ≤ 999) :
    leadingDigit n = n / 100 := by
  rw [leadingDigit, if_neg (by omega), leadingDigit, if_neg (by omega), leadingDigit,
    if_pos (by omega)]
  omega

theorem responseCodeTable_length : responseCodeTable.length = 47 := by
  decide

/-- C1: for each status code listed in the response-code table, `responseString` returns
exactly the decimal status number, one space and the canonical reason phrase that the
table gives for it. -/
theorem responseString_table :
    ∀ p ∈ responseCodeTable,
      responseString p.1 = StringUtils.itoa p.1 ++ " " ++ p.2 := by
  decide

/-- C1, on concrete codes: 200, 413, 418 and 431 render as in the table. -/
theorem responseString_table_examples :
    responseString 200 = "200 OK" ∧
    responseString 413 = "413 Payload Too Large" ∧
    responseString 418 = "418 I'm a teapot" ∧
    responseString 431 = "431 Request Header Fields Too Large" :=
  ⟨responseString_table (200, "OK") (by decide),
   responseString_table (413, "Payload Too Large") (by decide),
   responseString_table (418, "I'm a teapot") (by decide),
   responseString_table (431, "Request Header Fields Too Large") (by decide)⟩

/-- C2 (as stated, refuted): 42 and 1000 are not table codes; by their leading decimal digit
they would read "42 Client error" and "1000 Informational", yet `responseString` returns
"42 Unknown" and "1000 Unknown". -/
theorem responseString_leadingDigit_counterexample :
    ((42 : Int) ∉ tableCodes ∧ responseString 42 = "42 Unknown" ∧
      StringUtils.itoa 42 ++ " " ++ genericPhrase (leadingDigit (42 : Int).natAbs)
        = "42 Client error") ∧
    ((1000 : Int) ∉ tableCodes ∧ responseString 1000 = "1000 Unknown" ∧
      StringUtils.itoa 1000 ++ " " ++ genericPhrase (leadingDigit (1000 : Int).natAbs)
        = "1000 Informational") := by
  refine ⟨⟨by decide, by decide, ?_⟩, ⟨by decide, by decide, ?_⟩⟩
  · simp [leadingDigit, genericPhrase]; decide
  · simp [leadingDigit, genericPhrase]; decide

/-- C2 (amended): for a status code outside the table, `responseString` returns the decimal
code, a space and a generic phrase; for a code of three digits (100 to 999) the phrase is
the one of its leading decimal digit, and for every code below 100 (negative codes
included) or of 1000 and more the phrase is "Unknown". -/
theorem responseString_unknown_code (code : Int) (h : code ∉ tableCodes) :
    (100 ≤ code → code ≤ 999 →
      responseString code
        = StringUtils.itoa code ++ " " ++ genericPhrase (leadingDigit code.natAbs)) ∧
    (code < 100 ∨ 1000 ≤ code → responseString code = StringUtils.itoa code ++ " Unknown") := by
  rw [responseString_default code h]
  constructor
  · intro h1 h2
    obtain ⟨n, rfl⟩ := Int.eq_ofNat_of_zero_le (by omega : (0 : Int) ≤ code)
    have hn : leadingDigit n = n / 100 := leadingDigit_three_digits n (by omega) (by omega)
    have hd : Int.tdiv (n : Int) 100 = ((n / 100 : Nat) : Int) := by
      rw [tdiv_hundred]; split_ifs <;> omega
    simp only [Int.natAbs_ofNat, hn, hd]
  · intro h1
    have : ¬ (1 ≤ Int.tdiv code 100 ∧ Int.tdiv code 100 ≤ 5) := by
      rcases h1 with h1 | h1
      · rw [tdiv_hundred]; split_ifs <;> omega
      · rw [tdiv_hundred]; split_ifs <;> omega
    simp only [genericPhrase]
    split_ifs <;> first | omega | simp [String.append_assoc]

/-- C2 (amended), on concrete codes: 299 is outside the table and renders as "299 Success";
42 is below 100 and renders as "42 Unknown". -/
theorem responseString_unknown_code_examples :
    (299 : Int) ∉ tableCodes ∧ responseString 299 = "299 Success" ∧
    responseString 42 = "42 Unknown" := by
  refine ⟨by decide, ?_, ?_⟩
  · have h := (responseString_unknown_code 299 (by decide)).1 (by decide) (by decide)
    rw [h]
    simp [leadingDigit, genericPhrase]; decide
  · exact (responseString_unknown_code 42 (by decide)).2 (Or.inl (by decide))

end GeneralResponse

namespace GeneralResponse

/-! ### Internal error numbers -/

theorem not_mem_of_nodup_append {l₁ l₂ : List Int} (h : (l₁ ++ l₂).Nodup) {x : Int}
    (hx : x ∈ l₂) : x ∉ l₁ := fun h1 =>
  (List.nodup_append.mp h).2.2 h1 hx

/-- C3: with pairwise distinct `case` labels (as the C++ `switch` requires) and a code other
than `TRI_ERROR_NO_ERROR`, `responseCode(int)` returns the status of the family of its
argument: 400 for the bad-parameter labels, 403 for `TRI_ERROR_ARANGO_READ_ONLY`, 404 for
the not-found labels, 410 for canceled, killed and aborted, 409 for the conflict labels,
500 for the labels of deadlock, out of memory and internal error, 503 for
`TRI_ERROR_CLUSTER_BACKEND_UNAVAILABLE` and 501 for `TRI_ERROR_CLUSTER_UNSUPPORTED`. -/
theorem responseCode_families (E : ErrorNumbers) (code : Int)
    (hd : E.caseLabels.Nodup) (h0 : code ≠ E.TRI_ERROR_NO_ERROR) :
    (code ∈ E.labelsBAD → responseCode E code = some ResponseCode.BAD) ∧
    (code = E.TRI_ERROR_ARANGO_READ_ONLY →
      responseCode E code = some ResponseCode.FORBIDDEN) ∧
    (code ∈ E.labelsNOT_FOUND → responseCode E code = some ResponseCode.NOT_FOUND) ∧
    (code ∈ E.labelsGONE → responseCode E code = some ResponseCode.GONE) ∧
    (code ∈ E.labelsCONFLICT → responseCode E code = some ResponseCode.CONFLICT) ∧
    (code ∈ E.labelsSERVER_ERROR → responseCode E code = some ResponseCode.SERVER_ERROR) ∧
    (code = E.TRI_ERROR_CLUSTER_BACKEND_UNAVAILABLE →
      responseCode E code = some ResponseCode.SERVICE_UNAVAILABLE) ∧
    (code = E.TRI_ERROR_CLUSTER_UNSUPPORTED →
      responseCode E code = some ResponseCode.NOT_IMPLEMENTED) := by
  unfold ErrorNumbers.caseLabels at hd
  have h7 := hd.of_append_left
  have h6 := h7.of_append_left
  have h5 := h6.of_append_left
  have h4 := h5.of_append_left
  have h3 := h4.of_append_left
  have h2 := h3.of_append_left
  simp only [responseCode, if_neg h0, responseCodeSwitch]
  refine ⟨?_, ?_, ?_, ?_, ?_, ?_, ?_, ?_⟩
  · intro h; rw [if_pos h]
  · intro h
    have hm : code ∈ E.labelsFORBIDDEN := by simp [ErrorNumbers.labelsFORBIDDEN, h]
    have n1 := not_mem_of_nodup_append h2 hm
    rw [if_neg n1, if_pos hm]
  · intro hm
    have n1 := not_mem_of_nodup_append h3 hm
    rw [List.mem_append, not_or] at n1
    rw [if_neg n1.1, if_neg n1.2, if_pos hm]
  · intro hm
    have n1 := not_mem_of_nodup_append h4 hm
    simp only [List.mem_append, not_or] at n1
    rw [if_neg n1.1.1, if_neg n1.1.2, if_neg n1.2, if_pos hm]
  · intro hm
    have n1 := not_mem_of_nodup_append h5 hm
    simp only [List.mem_append, not_or] at n1
    rw [if_neg n1.1.1.1, if_neg n1.1.1.2, if_neg n1.1.2, if_neg n1.2, if_pos hm]
  · intro hm
    have n1 := not_mem_of_nodup_append h6 hm
    simp only [List.mem_append, not_or] at n1
    rw [if_neg n1.1.1.1.1, if_neg n1.1.1.1.2, if_neg n1.1.1.2, if_neg n1.1.2, if_neg n1.2,
      if_pos hm]
  · intro h
    have hm : code ∈ E.labelsSERVICE_UNAVAILABLE := by
      simp [ErrorNumbers.labelsSERVICE_UNAVAILABLE, h]
    have n1 := not_mem_of_nodup_append h7 hm
    simp only [List.mem_append, not_or] at n1
    rw [if_neg n1.1.1.1.1.1, if_neg n1.1.1.1.1.2, if_neg n1.1.1.1.2, if_neg n1.1.1.2,
      if_neg n1.1.2, if_neg n1.2, if_pos hm]
  · intro h
    have hm : code ∈ E.labelsNOT_IMPLEMENTED := by
      simp [ErrorNumbers.labelsNOT_IMPLEMENTED, h]
    have n1 := not_mem_of_nodup_append hd hm
    simp only [List.mem_append, not_or] at n1
    rw [if_neg n1.1.1.1.1.1.1, if_neg n1.1.1.1.1.1.2, if_neg n1.1.1.1.1.2, if_neg n1.1.1.1.2,
      if_neg n1.1.1.2, if_neg n1.1.2, if_neg n1.2, if_pos hm]

/-- C3, on the sample numbering: its labels are pairwise distinct, and one code of each
family is projected to the status of the family. -/
theorem responseCode_families_sample :
    sampleErrorNumbers.caseLabels.Nodup ∧
    responseCode sampleErrorNumbers sampleErrorNumbers.TRI_ERROR_BAD_PARAMETER = some 400 ∧
    responseCode sampleErrorNumbers sampleErrorNumbers.TRI_ERROR_ARANGO_READ_ONLY = some 403 ∧
    responseCode sampleErrorNumbers sampleErrorNumbers.TRI_ERROR_CURSOR_NOT_FOUND = some 404 ∧
    responseCode sampleErrorNumbers sampleErrorNumbers.TRI_ERROR_QUERY_KILLED = some 410 ∧
    responseCode sampleErrorNumbers sampleErrorNumbers.TRI_ERROR_ARANGO_CONFLICT = some 409 ∧
    responseCode sampleErrorNumbers sampleErrorNumbers.TRI_ERROR_OUT_OF_MEMORY = some 500 ∧
    responseCode sampleErrorNumbers sampleErrorNumbers.TRI_ERROR_CLUSTER_BACKEND_UNAVAILABLE
      = some 503 ∧
    responseCode sampleErrorNumbers sampleErrorNumbers.TRI_ERROR_CLUSTER_UNSUPPORTED
      = some 501 :=
  ⟨by decide,
   (responseCode_families sampleErrorNumbers _ (by decide) (by decide)).1 (by decide),
   (responseCode_families sampleErrorNumbers _ (by decide) (by decide)).2.1 rfl,
   (responseCode_families sampleErrorNumbers _ (by decide) (by decide)).2.2.1 (by decide),
   (responseCode_families sampleErrorNumbers _ (by decide) (by decide)).2.2.2.1 (by decide),
   (responseCode_families sampleErrorNumbers _ (by decide) (by decide)).2.2.2.2.1 (by decide),
   (responseCode_families sampleErrorNumbers _ (by decide) (by decide)).2.2.2.2.2.1
     (by decide),
   (responseCode_families sampleErrorNumbers _ (by decide) (by decide)).2.2.2.2.2.2.1 rfl,
   (responseCode_families sampleErrorNumbers _ (by decide) (by decide)).2.2.2.2.2.2.2 rfl⟩

/-- C4: a code other than `TRI_ERROR_NO_ERROR` that is not the value of any `case` label of
`responseCode(int)` (a negative or unassigned integer included) is projected to
`SERVER_ERROR`, that is 500. -/
theorem responseCode_default (E : ErrorNumbers) (code : Int)
    (h0 : code ≠ E.TRI_ERROR_NO_ERROR) (h : code ∉ E.caseLabels) :
    responseCode E code = some ResponseCode.SERVER_ERROR := by
  simp only [ErrorNumbers.caseLabels, List.mem_append, not_or] at h
  simp only [responseCode, if_neg h0, responseCodeSwitch, if_neg h.1.1.1.1.1.1.1,
    if_neg h.1.1.1.1.1.1.2, if_neg h.1.1.1.1.1.2, if_neg h.1.1.1.1.2, if_neg h.1.1.1.2,
    if_neg h.1.1.2, if_neg h.1.2, if_neg h.2]

/-- C4, on the sample numbering: the negative code -1 and the unassigned code 5000 are
no labels and are projected to 500. -/
theorem responseCode_default_sample :
    (-1 : Int) ∉ sampleErrorNumbers.caseLabels ∧
    responseCode sampleErrorNumbers (-1) = some 500 ∧
    (5000 : Int) ∉ sampleErrorNumbers.caseLabels ∧
    responseCode sampleErrorNumbers 5000 = some 500 :=
  ⟨by decide, responseCode_default sampleErrorNumbers (-1) (by decide) (by decide),
   by decide, responseCode_default sampleErrorNumbers 5000 (by decide) (by decide)⟩

/-! ### Headers -/

theorem HeaderMap.find_assign_self (m : HeaderMap) (k v : String) :
    (m.assign k v).find k = some v := by
  simp [HeaderMap.assign, HeaderMap.find]

theorem HeaderMap.assign_assign (m : HeaderMap) (k v1 v2 : String) :
    (m.assign k v1).assign k v2 = m.assign k v2 := by
  simp [HeaderMap.assign, List.filter_filter]

theorem HeaderMap.filter_key_assign (m : HeaderMap) (k v : String) :
    (m.assign k v).filter (fun e => decide (e.1 = k)) = [(k, v)] := by
  simp [HeaderMap.assign, List.filter_filter]

/-- C5 (the code at the failing input): `setHeader("Content-Type", "text/html")` on a fresh
response stores the entry under the key as given; no entry exists under the lowercased
key, and the header map has a key that is not lowercase. -/
theorem setHeader_keeps_key_case :
    ((GeneralResponse.new ResponseCode.OK 0).setHeader "Content-Type" "text/html")._headers
      = [("Content-Type", "text/html")] ∧
    ((GeneralResponse.new ResponseCode.OK 0).setHeader "Content-Type" "text/html")._headers.find
      (StringUtils.tolower "Content-Type") = none ∧
    StringUtils.tolower "Content-Type" = "content-type" ∧
    ∃ e ∈ ((GeneralResponse.new ResponseCode.OK 0).setHeader
        "Content-Type" "text/html")._headers, StringUtils.tolower e.1 ≠ e.1 := by
  refine ⟨by decide, by decide, by decide, ("Content-Type", "text/html"), by decide, by decide⟩

/-- C6 (the code at the failing input): after `setHeader("Content-Type", "text/html")` on a
fresh response, `header("Content-Type")` returns the empty string and the two-argument
lookup returns the empty string with `found = false`. -/
theorem setHeader_then_header_misses :
    ((GeneralResponse.new ResponseCode.OK 0).setHeader "Content-Type" "text/html").header
      "Content-Type" = "" ∧
    ((GeneralResponse.new ResponseCode.OK 0).setHeader "Content-Type" "text/html").headerFound
      "Content-Type" = ("", false) := by
  constructor <;> decide

/-- C7: `setHeaderNC(key, value)` keeps the letter case of the key: afterwards the header map
holds the entry of exactly the key as given with the value, it is the only entry of that
key, and the lookup of the key as given finds the value. -/
theorem setHeaderNC_stores_key_as_given (r : GeneralResponse) (key value : String) :
    (key, value) ∈ (r.setHeaderNC key value)._headers ∧
    (r.setHeaderNC key value)._headers.filter (fun e => decide (e.1 = key)) = [(key, value)] ∧
    (r.setHeaderNC key value)._headers.find key = some value := by
  refine ⟨?_, ?_, ?_⟩
  · simp [setHeaderNC, HeaderMap.assign]
  · exact HeaderMap.filter_key_assign r._headers key value
  · exact HeaderMap.find_assign_self r._headers key value

/-- C8: duplicate keys overwrite, the last write wins: after `setHeader(k, v1)` and then
`setHeader(k, v2)` the header map has exactly one entry for `k`, its value is `v2`, and
the map has as many entries as after the first call alone; likewise for `setHeaderNC`. -/
theorem setHeader_last_write_wins (r : GeneralResponse) (k v1 v2 : String) :
    (((r.setHeader k v1).setHeader k v2)._headers.filter (fun e => decide (e.1 = k))
        = [(k, v2)] ∧
      ((r.setHeader k v1).setHeader k v2)._headers.find k = some v2 ∧
      ((r.setHeader k v1).setHeader k v2)._headers.length
        = (r.setHeader k v1)._headers.length) ∧
    (((r.setHeaderNC k v1).setHeaderNC k v2)._headers.filter (fun e => decide (e.1 = k))
        = [(k, v2)] ∧
      ((r.setHeaderNC k v1).setHeaderNC k v2)._headers.find k = some v2 ∧
      ((r.setHeaderNC k v1).setHeaderNC k v2)._headers.length
        = (r.setHeaderNC k v1)._headers.length) := by
  have hlen : ((r._headers.assign k v1).assign k v2).length
      = (r._headers.assign k v1).length := by
    rw [HeaderMap.assign_assign]; simp [HeaderMap.assign]
  exact ⟨⟨HeaderMap.filter_key_assign _ k v2, HeaderMap.find_assign_self _ k v2, hlen⟩,
    ⟨HeaderMap.filter_key_assign _ k v2, HeaderMap.find_assign_self _ k v2, hlen⟩⟩

end GeneralResponse

namespace HttpCommTask

/-! ### Chunked framing -/

theorem hexValue_hexDigit : ∀ d, d < 16 → hexValue (hexDigit d) = some d := by
  decide

theorem toHexAux_head :
    ∀ (fuel n : Nat) (acc : List Char), n < fuel →
      ∃ d cs, d < 16 ∧ toHexAux fuel n acc = hexDigit d :: cs := by
  intro fuel
  induction fuel with
  | zero => intro n acc h; omega
  | succ fuel ih =>
    intro n acc h
    unfold toHexAux
    split_ifs with hn
    · exact ⟨n, acc, hn, rfl⟩
    · exact ih (n / 16) _ (by omega)

theorem readHex_toHexAux :
    ∀ (fuel n : Nat) (acc : List Char) (a : Nat), n < fuel →
      ∃ k, readHex a (toHexAux fuel n [] ++ acc) = readHex (a * 16 ^ k + n) acc ∧
        toHexAux fuel n acc = toHexAux fuel n [] ++ acc := by
  intro fuel
  induction fuel with
  | zero => intro n acc a h; omega
  | succ fuel ih =>
    intro n acc a h
    unfold toHexAux
    split_ifs with hn
    · refine ⟨1, ?_, rfl⟩
      simp only [List.singleton_append, readHex, hexValue_hexDigit n hn, pow_one]
      rfl
    · obtain ⟨k, hk, happ⟩ := ih (n / 16) (hexDigit (n % 16) :: acc) a (by omega)
      obtain ⟨_, _, happ0⟩ := ih (n / 16) [hexDigit (n % 16)] a (by omega)
      refine ⟨k + 1, ?_, ?_⟩
      · rw [happ0, List.append_assoc, List.singleton_append, hk]
        simp only [readHex, hexValue_hexDigit (n % 16) (Nat.mod_lt _ (by omega))]
        congr 1
        rw [pow_succ]
        have := Nat.div_add_mod n 16
        nlinarith [Nat.div_add_mod n 16]
      · rw [happ, happ0, List.append_assoc, List.singleton_append]

theorem readHex_toHex (n : Nat) (rest : List Char) :
    readHex 0 (toHex n ++ '\r' :: rest) = (n, '\r' :: rest) := by
  obtain ⟨k, hk, _⟩ := readHex_toHexAux (n + 1) n ('\r' :: rest) 0 (by omega)
  unfold toHex
  rw [hk]
  have h : hexValue '\r' = none := by decide
  simp [readHex, h]

theorem toHex_head (n : Nat) : ∃ c cs, toHex n = c :: cs ∧ (hexValue c).isNone = false := by
  obtain ⟨d, cs, hd, h⟩ := toHexAux_head (n + 1) n [] (by omega)
  exact ⟨hexDigit d, cs, h, by rw [hexValue_hexDigit d hd]; rfl⟩

theorem decodeChunkedAux_terminator (fuel : Nat) (tail : List Char) :
    decodeChunkedAux (fuel + 1) (chunkTerminator ++ tail) = some [] := by
  have h0 : (hexValue '0').isNone = false := by decide
  have h1 : hexValue '0' = some 0 := by decide
  have h2 : hexValue '\r' = none := by decide
  simp [decodeChunkedAux, chunkTerminator, readHex, h0, h1, h2]

theorem decodeChunkedAux_frame (fuel : Nat) (b : StringBuffer) (hb : b ≠ [])
    (more : List Char) :
    decodeChunkedAux (fuel + 1) (frameChunk b ++ more)
      = (decodeChunkedAux fuel more).map (fun body => b ++ body) := by
  obtain ⟨c, cs, hc, hhex⟩ := toHex_head b.length
  have hinput : frameChunk b ++ more
      = toHex b.length ++ '\r' :: ('\n' :: (b ++ '\r' :: '\n' :: more)) := by
    simp [frameChunk, List.append_assoc]
  have hread := readHex_toHex b.length ('\n' :: (b ++ '\r' :: '\n' :: more))
  have hlen : b.length ≠ 0 := fun h => hb (List.length_eq_zero.mp h)
  rw [hinput]
  conv_lhs => unfold decodeChunkedAux
  rw [hread]
  rw [hc]
  simp only [List.cons_append, hhex, Bool.false_eq_true, if_false, if_neg hlen]
  simp

theorem decodeChunkedAux_frames :
    ∀ (chunks : List StringBuffer) (fuel : Nat) (tail : List Char),
      chunks.length < fuel → (∀ b ∈ chunks, b ≠ []) →
      decodeChunkedAux fuel ((chunks.map frameChunk).flatten ++ chunkTerminator ++ tail)
        = some chunks.flatten := by
  intro chunks
  induction chunks with
  | nil =>
    intro fuel tail hf _
    obtain ⟨f, rfl⟩ := Nat.exists_eq_succ_of_ne_zero (by omega : fuel ≠ 0)
    simpa using decodeChunkedAux_terminator f tail
  | cons b rest ih =>
    intro fuel tail hf hne
    obtain ⟨f, rfl⟩ := Nat.exists_eq_succ_of_ne_zero (by omega : fuel ≠ 0)
    have hrest := ih f tail (by simp at hf; omega)
      (fun c hc => hne c (List.mem_cons_of_mem _ hc))
    have := decodeChunkedAux_frame f b (hne b (List.mem_cons_self _ _))
      ((rest.map frameChunk).flatten ++ chunkTerminator ++ tail)
    simp only [List.map_cons, List.flatten_cons, List.append_assoc] at this hrest ⊢
    rw [this, hrest]
    rfl

theorem sendChunk_foldl_writeBuffers :
    ∀ (chunks : List StringBuffer) (t : HttpCommTask),
      (chunks.foldl sendChunk t)._writeBuffers = t._writeBuffers ++ chunks.map frameChunk := by
  intro chunks
  induction chunks with
  | nil => intro t; simp
  | cons b rest ih =>
    intro t
    rw [List.foldl_cons, ih]
    simp [sendChunk]

theorem length_le_flatten_frames (chunks : List StringBuffer) :
    chunks.length ≤ (chunks.map frameChunk).flatten.length := by
  induction chunks with
  | nil => simp
  | cons b rest ih =>
    simp only [List.map_cons, List.flatten_cons, List.length_append, List.length_cons,
      frameChunk, List.length_nil]
    omega

/-- C10 (as stated, refuted): for the buffers "" and "a" the bytes enqueued by `sendChunk`,
`sendChunk`, `finishedChunked` are the two frames and the terminator, but the frame of
the empty buffer is itself a terminator: the decoded body is empty, not "a". -/
theorem sendChunk_empty_chunk_counterexample :
    (finishedChunked ([[], ['a']].foldl sendChunk fresh))._writeBuffers.flatten
      = "0\r\n\r\n1\r\na\r\n0\r\n\r\n".data ∧
    decodeChunked (finishedChunked ([[], ['a']].foldl sendChunk fresh))._writeBuffers.flatten
      = some [] ∧
    decodeChunked (finishedChunked ([[], ['a']].foldl sendChunk fresh))._writeBuffers.flatten
      ≠ some ([[], ['a']] : List StringBuffer).flatten := by
  refine ⟨by decide, by decide, by decide⟩

/-- C10 (amended): for every sequence of buffers passed to `sendChunk` and followed by
`finishedChunked`, the buffers enqueued are the frames `<hex length>\r\n<bytes>\r\n` of
the buffers, in order, followed by the terminator `0\r\n\r\n`; and when no buffer is
empty, decoding the enqueued bytes as a chunked stream gives the concatenation of the
buffers. -/
theorem sendChunk_finishedChunked_framing (t : HttpCommTask) (chunks : List StringBuffer) :
    (finishedChunked (chunks.foldl sendChunk t))._writeBuffers
      = t._writeBuffers ++ (chunks.map frameChunk ++ [chunkTerminator]) ∧
    ((∀ b ∈ chunks, b ≠ []) →
      decodeChunked (chunks.map frameChunk ++ [chunkTerminator]).flatten
        = some chunks.flatten) := by
  constructor
  · simp [finishedChunked, sendChunk_foldl_writeBuffers]
  · intro hne
    unfold decodeChunked
    have hlen := length_le_flatten_frames chunks
    have h := decodeChunkedAux_frames chunks
      (chunks.map frameChunk ++ [chunkTerminator]).flatten.length [] (by
        simp only [List.flatten_append, List.length_append, List.flatten_cons,
          List.flatten_nil, List.append_nil, chunkTerminator, List.length_cons,
          List.length_nil]
        omega) hne
    simpa using h

/-- C10 (amended), on the chunked response of the specification: the chunks "Hello" and
" World" are enqueued as `5\r\nHello\r\n6\r\n World\r\n0\r\n\r\n`, which decodes to
"Hello World". -/
theorem sendChunk_finishedChunked_example :
    (finishedChunked (["Hello".data, " World".data].foldl sendChunk fresh))._writeBuffers
      = ["5\r\nHello\r\n".data, "6\r\n World\r\n".data, "0\r\n\r\n".data] ∧
    decodeChunked "5\r\nHello\r\n6\r\n World\r\n0\r\n\r\n".data = some "Hello World".data :=
  ⟨(sendChunk_finishedChunked_framing fresh ["Hello".data, " World".data]).1,
   (sendChunk_finishedChunked_framing fresh ["Hello".data, " World".data]).2 (by decide)⟩

end HttpCommTask

namespace GeneralResponse

/-! ### Reading status numbers back -/

theorem digitChar_isDigit :
    ∀ d, d < 10 → (Nat.digitChar d).isDigit = true ∧ (Nat.digitChar d).toNat - 48 = d := by
  decide

theorem digitChar_not_sign_or_space :
    ∀ d, d < 10 →
      isspace (Nat.digitChar d) = false ∧ Nat.digitChar d ≠ '-' ∧ Nat.digitChar d ≠ '+' := by
  decide

theorem toDigitsCore_head :
    ∀ (fuel n : Nat) (ds : List Char), n < fuel →
      ∃ d cs, d < 10 ∧ Nat.toDigitsCore 10 fuel n ds = Nat.digitChar d :: cs := by
  intro fuel
  induction fuel with
  | zero => intro n ds h; omega
  | succ fuel ih =>
    intro n ds h
    unfold Nat.toDigitsCore
    simp only
    split_ifs with hn
    · exact ⟨n % 10, ds, Nat.mod_lt _ (by omega), rfl⟩
    · exact ih (n / 10) _ (by omega)

theorem atoiDigits_toDigitsCore :
    ∀ (fuel n : Nat) (ds : List Char) (a : Nat), n < fuel →
      ∃ k, atoiDigits a (Nat.toDigitsCore 10 fuel n [] ++ ds) = atoiDigits (a * 10 ^ k + n) ds ∧
        Nat.toDigitsCore 10 fuel n ds = Nat.toDigitsCore 10 fuel n [] ++ ds := by
  intro fuel
  induction fuel with
  | zero => intro n ds a h; omega
  | succ fuel ih =>
    intro n ds a h
    unfold Nat.toDigitsCore
    simp only
    have hd := digitChar_isDigit (n % 10) (Nat.mod_lt _ (by omega))
    split_ifs with hn
    · refine ⟨1, ?_, rfl⟩
      have hmod : n % 10 = n := Nat.mod_eq_of_lt (by omega)
      rw [hmod] at hd
      simp only [List.singleton_append, atoiDigits, hd.1, hd.2, if_true, pow_one, hmod]
      rfl
    · obtain ⟨k, hk, happ⟩ := ih (n / 10) (Nat.digitChar (n % 10) :: ds) a (by omega)
      obtain ⟨_, _, happ0⟩ := ih (n / 10) [Nat.digitChar (n % 10)] a (by omega)
      refine ⟨k + 1, ?_, ?_⟩
      · rw [happ0, List.append_assoc, List.singleton_append, hk]
        simp only [atoiDigits, hd.1, hd.2, if_true]
        congr 1
        rw [pow_succ]
        nlinarith [Nat.div_add_mod n 10]
      · rw [happ, happ0, List.append_assoc, List.singleton_append]

theorem atoiDigits_repr (n : Nat) (rest : List Char) :
    atoiDigits 0 ((Nat.repr n).data ++ ' ' :: rest) = n := by
  obtain ⟨k, hk, _⟩ := atoiDigits_toDigitsCore (n + 1) n (' ' :: rest) 0 (by omega)
  have hsp : (' ' : Char).isDigit = false := by decide
  show atoiDigits 0 (Nat.toDigitsCore 10 (n + 1) n [] ++ ' ' :: rest) = n
  rw [hk]
  simp [atoiDigits, hsp]

theorem leadingInteger_itoa (c : Int) (phrase : String) :
    leadingInteger (StringUtils.itoa c ++ " " ++ phrase) = c := by
  have hdata : ∀ s : String, (s ++ " " ++ phrase).data = s.data ++ ' ' :: phrase.data := by
    intro s
    simp [String.data_append]
  unfold leadingInteger
  rw [hdata]
  cases c with
  | ofNat m =>
    obtain ⟨d, cs, hd, hcs⟩ := toDigitsCore_head (m + 1) m [] (by omega)
    have hrepr : (StringUtils.itoa (Int.ofNat m)).data = Nat.digitChar d :: cs := hcs
    have hp := digitChar_not_sign_or_space d hd
    have hval := atoiDigits_repr m phrase.data
    have hrepr2 : (Nat.repr m).data = Nat.digitChar d :: cs := hcs
    rw [hrepr2] at hval
    rw [hrepr]
    simp only [List.cons_append, List.dropWhile_cons, hp.1, Bool.false_eq_true, if_false]
    split
    · next h => simp only [List.cons.injEq] at h; exact absurd h.1 hp.2.1
    · next h => simp only [List.cons.injEq] at h; exact absurd h.1 hp.2.2
    · simp only [List.cons_append] at hval
      simp [hval]
  | negSucc m =>
    have hrepr : (StringUtils.itoa (Int.negSucc m)).data = '-' :: (Nat.repr (m + 1)).data := by
      simp [StringUtils.itoa, String.data_append]
    have hval := atoiDigits_repr (m + 1) phrase.data
    have hsp : isspace '-' = false := by decide
    rw [hrepr]
    simp only [List.cons_append, List.dropWhile_cons, hsp]
    simp only [Bool.false_eq_true, if_false, hval]
    rfl

theorem tableCodes_range : ∀ c ∈ tableCodes, 100 ≤ c ∧ c ≤ 510 := by
  decide

theorem responseString_phrase_of_table :
    ∀ p ∈ responseCodeTable,
      responseString p.1 = StringUtils.itoa p.1 ++ " " ++ p.2 ∧ p.2.data.head? ≠ some ' ' := by
  decide

theorem genericPhrase_head (d : Int) : (genericPhrase d).data.head? ≠ some ' ' := by
  unfold genericPhrase
  split_ifs <;> decide

theorem responseString_decimal_head (code : Int) :
    ∃ phrase : String,
      responseString code = StringUtils.itoa code ++ " " ++ phrase ∧
        phrase.data.head? ≠ some ' ' := by
  by_cases h : code ∈ tableCodes
  · obtain ⟨p, hp, rfl⟩ := List.mem_map.mp h
    exact ⟨p.2, responseString_phrase_of_table p hp⟩
  · exact ⟨genericPhrase (Int.tdiv code 100), responseString_default code h,
      genericPhrase_head _⟩

theorem leadingInteger_responseString (code : Int) :
    leadingInteger (responseString code) = code := by
  obtain ⟨phrase, h, _⟩ := responseString_decimal_head code
  rw [h]
  exact leadingInteger_itoa code phrase

/-- C11: for a status code outside the table, `responseString` returns the decimal code, a
space and the generic phrase of the quotient `code / 100` of the truncating division
(1 informational, 2 success, 3 redirection, 4 client error, 5 server error, all else
unknown); hence every code below 100, negative codes included, and every code of 600
or more renders as the code followed by " Unknown". -/
theorem responseString_group_phrase (code : Int) :
    (code ∉ tableCodes →
      responseString code
        = StringUtils.itoa code ++ " " ++ genericPhrase (Int.tdiv code 100)) ∧
    (code < 100 ∨ 600 ≤ code → responseString code = StringUtils.itoa code ++ " Unknown") := by
  refine ⟨responseString_default code, ?_⟩
  intro h
  have hnot : code ∉ tableCodes := by
    intro hmem
    have := tableCodes_range code hmem
    omega
  rw [responseString_default code hnot]
  have hq : ¬ (1 ≤ Int.tdiv code 100 ∧ Int.tdiv code 100 ≤ 5) := by
    rw [tdiv_hundred]
    split_ifs <;> omega
  simp only [genericPhrase]
  split_ifs <;> first | omega | simp [String.append_assoc]

/-- C11, on concrete codes: 299 and 504 are outside the table and get the phrase of their
group; 42, 600 and -150 render as unknown. -/
theorem responseString_group_phrase_examples :
    responseString 299 = "299 Success" ∧
    responseString 504 = "504 Server error" ∧
    responseString 42 = "42 Unknown" ∧
    responseString 600 = "600 Unknown" ∧
    responseString (-150) = "-150 Unknown" :=
  ⟨(responseString_group_phrase 299).1 (by decide),
   (responseString_group_phrase 504).1 (by decide),
   (responseString_group_phrase 42).2 (Or.inl (by decide)),
   (responseString_group_phrase 600).2 (Or.inr (by decide)),
   (responseString_group_phrase (-150)).2 (Or.inl (by decide))⟩

/-- C12: for every status code of the response-code table, reading the status string back
gives the code: `responseCode(responseString(c)) = c`, with the string overload of
`responseCode`. -/
theorem responseCode_responseString_roundtrip :
    ∀ code ∈ tableCodes, responseCodeFromString (responseString code) = code := by
  decide

/-- C12, on concrete codes: 200, 418 and 510 are table codes and are read back from their
status strings. -/
theorem responseCode_responseString_roundtrip_examples :
    responseCodeFromString (responseString 200) = 200 ∧
    responseCodeFromString (responseString 418) = 418 ∧
    responseCodeFromString (responseString 510) = 510 :=
  ⟨responseCode_responseString_roundtrip 200 (by decide),
   responseCode_responseString_roundtrip 418 (by decide),
   responseCode_responseString_roundtrip 510 (by decide)⟩

/-- C14: for every status code, of the table or not, `responseString` begins with the
decimal representation of the code followed by exactly one space (what follows the space
does not begin with a space); and `responseString` is injective: two different codes
never give the same string. -/
theorem responseString_decimal_injective :
    (∀ code : Int, ∃ phrase : String,
      responseString code = StringUtils.itoa code ++ " " ++ phrase ∧
        phrase.data.head? ≠ some ' ') ∧
    (∀ c1 c2 : Int, responseString c1 = responseString c2 → c1 = c2) := by
  refine ⟨responseString_decimal_head, ?_⟩
  intro c1 c2 h
  have h1 := leadingInteger_responseString c1
  rw [h, leadingInteger_responseString c2] at h1
  exact h1.symm

/-- C14, on concrete codes: the strings of 200 and 201 differ, as do those of the unknown
codes 299 and 2990. -/
theorem responseString_decimal_injective_examples :
    responseString 200 ≠ responseString 201 ∧ responseString 299 ≠ responseString 2990 :=
  ⟨fun h => absurd (responseString_decimal_injective.2 200 201 h) (by decide),
   fun h => absurd (responseString_decimal_injective.2 299 2990 h) (by decide)⟩

/-! ### Statuses of internal error numbers -/

theorem responseCodeSwitch_mem (E : ErrorNumbers) (code : Int) :
    responseCodeSwitch E code ∈ ([400, 403, 404, 409, 410, 500, 501, 503] : List Int) := by
  unfold responseCodeSwitch
  split_ifs <;> decide

theorem responseCodeSwitch_ge (E : ErrorNumbers) (code : Int) :
    (400 : Int) ≤ responseCodeSwitch E code := by
  unfold responseCodeSwitch
  split_ifs <;> decide

/-- C15: for every internal error code other than `TRI_ERROR_NO_ERROR`, `responseCode(int)`
returns one of the eight statuses 400, 403, 404, 409, 410, 500, 501 and 503, and so never
a status of the classes 1xx, 2xx and 3xx. -/
theorem responseCode_error_status (E : ErrorNumbers) (code : Int)
    (h0 : code ≠ E.TRI_ERROR_NO_ERROR) :
    ∃ status : Int, responseCode E code = some status ∧
      status ∈ ([400, 403, 404, 409, 410, 500, 501, 503] : List Int) ∧ 400 ≤ status := by
  refine ⟨responseCodeSwitch E code, ?_, responseCodeSwitch_mem E code,
    responseCodeSwitch_ge E code⟩
  simp only [responseCode, if_neg h0]

/-- C15, on the sample numbering: the status of the code 86 (the read-only error) and of the
unassigned code -7 are among the eight statuses. -/
theorem responseCode_error_status_sample :
    (∃ status : Int, responseCode sampleErrorNumbers 86 = some status ∧
      status ∈ ([400, 403, 404, 409, 410, 500, 501, 503] : List Int) ∧ 400 ≤ status) ∧
    (∃ status : Int, responseCode sampleErrorNumbers (-7) = some status ∧
      status ∈ ([400, 403, 404, 409, 410, 500, 501, 503] : List Int) ∧ 400 ≤ status) :=
  ⟨responseCode_error_status sampleErrorNumbers 86 (by decide),
   responseCode_error_status sampleErrorNumbers (-7) (by decide)⟩

/-- C19: the assertion at the head of `responseCode(int)` fails exactly when the code is
`TRI_ERROR_NO_ERROR`, and for every other integer the function returns a status. -/
theorem responseCode_assertion (E : ErrorNumbers) (code : Int) :
    (responseCode E code = none ↔ code = E.TRI_ERROR_NO_ERROR) ∧
    (code ≠ E.TRI_ERROR_NO_ERROR → ∃ status : Int, responseCode E code = some status) := by
  constructor
  · unfold responseCode
    split_ifs with h <;> simp [h]
  · intro h
    exact ⟨responseCodeSwitch E code, by simp only [responseCode, if_neg h]⟩

/-- C19, on the sample numbering: the call with `TRI_ERROR_NO_ERROR`, which is 0, fails the
assertion; the calls with 1, with -1 and with 123456 return a status. -/
theorem responseCode_assertion_sample :
    responseCode sampleErrorNumbers 0 = none ∧
    (∃ status : Int, responseCode sampleErrorNumbers 1 = some status) ∧
    (∃ status : Int, responseCode sampleErrorNumbers (-1) = some status) ∧
    (∃ status : Int, responseCode sampleErrorNumbers 123456 = some status) :=
  ⟨(responseCode_assertion sampleErrorNumbers 0).1.mpr rfl,
   (responseCode_assertion sampleErrorNumbers 1).2 (by decide),
   (responseCode_assertion sampleErrorNumbers (-1)).2 (by decide),
   (responseCode_assertion sampleErrorNumbers 123456).2 (by decide)⟩

/-! ### Header lookup -/

theorem HeaderMap.find_eq_none_iff (m : HeaderMap) (k : String) :
    m.find k = none ↔ k ∉ m.map Prod.fst := by
  induction m with
  | nil => simp [HeaderMap.find]
  | cons e rest ih =>
    unfold HeaderMap.find
    by_cases he : e.1 = k
    · simp [he]
    · simp only [if_neg he, ih, List.map_cons, List.mem_cons, not_or]
      exact ⟨fun h => ⟨fun hk => he hk.symm, h⟩, fun h => h.2⟩

theorem HeaderMap.find_filter_ne (m : HeaderMap) {k k' : String} (h : k' ≠ k) :
    HeaderMap.find (m.filter (fun e => decide (e.1 ≠ k))) k' = m.find k' := by
  induction m with
  | nil => rfl
  | cons e rest ih =>
    by_cases he : e.1 = k
    · have hs : e.1 ≠ k' := fun hc => h (hc ▸ he)
      rw [List.filter_cons_of_neg (by simp [he]), ih]
      simp [HeaderMap.find, hs]
    · rw [List.filter_cons_of_pos (by simp [he])]
      by_cases hs : e.1 = k'
      · simp [HeaderMap.find, hs]
      · simp only [HeaderMap.find, if_neg hs]
        exact ih

theorem HeaderMap.find_assign_ne (m : HeaderMap) (k v : String) {k' : String} (h : k' ≠ k) :
    (m.assign k v).find k' = m.find k' := by
  have hk : ¬ k = k' := fun hc => h hc.symm
  unfold HeaderMap.assign
  rw [HeaderMap.find, if_neg hk]
  exact HeaderMap.find_filter_ne m h

theorem HeaderMap.keys_assign (m : HeaderMap) (k v : String) :
    ∀ k' ∈ m.map Prod.fst, k' ∈ (m.assign k v).map Prod.fst := by
  intro k' hk'
  obtain ⟨e, he, rfl⟩ := List.mem_map.mp hk'
  by_cases h : e.1 = k
  · simp [HeaderMap.assign, h]
  · apply List.mem_map.mpr
    exact ⟨e, by simp [HeaderMap.assign, he, h], rfl⟩

/-- C16: the header lookup is case-insensitive in its argument: for keys that agree after
lowercasing, `header` returns the same string and the two-argument `header` the same
string and the same `found`; both are the lookup of the lowercased key in the map. -/
theorem header_case_insensitive (r : GeneralResponse) (k1 k2 : String)
    (h : StringUtils.tolower k1 = StringUtils.tolower k2) :
    r.header k1 = r.header k2 ∧
    r.headerFound k1 = r.headerFound k2 ∧
    r.header k1 = (r._headers.find (StringUtils.tolower k1)).getD "" ∧
    r.headerFound k1
      = ((r._headers.find (StringUtils.tolower k1)).getD "",
         (r._headers.find (StringUtils.tolower k1)).isSome) := by
  refine ⟨?_, ?_, ?_, ?_⟩
  · simp only [header, h]
  · simp only [headerFound, h]
  · simp only [header]
    cases r._headers.find (StringUtils.tolower k1) <;> rfl
  · simp only [headerFound]
    cases r._headers.find (StringUtils.tolower k1) <;> rfl

/-- C16, on a concrete response with the entry "content-type": the lookups with
"Content-Type" and with "CONTENT-TYPE" both find its value. -/
theorem header_case_insensitive_example :
    ((GeneralResponse.new ResponseCode.OK 0).setHeaderNC "content-type" "text/html").header
        "Content-Type" = "text/html" ∧
    ((GeneralResponse.new ResponseCode.OK 0).setHeaderNC "content-type" "text/html").header
        "CONTENT-TYPE" = "text/html" ∧
    ((GeneralResponse.new ResponseCode.OK 0).setHeaderNC "content-type" "text/html").headerFound
        "CONTENT-TYPE" = ("text/html", true) := by
  have h := header_case_insensitive
    ((GeneralResponse.new ResponseCode.OK 0).setHeaderNC "content-type" "text/html")
    "Content-Type" "CONTENT-TYPE" (by decide)
  refine ⟨by decide, ?_, ?_⟩
  · rw [← h.1]; decide
  · rw [← h.2.1]; decide

/-- C17: a missing header is reported, not an error: the two-argument `header` sets `found`
to true exactly when the lowercased key is a key of the header map, and then returns the
stored value; otherwise it sets `found` to false and returns the empty string; and the
one-argument `header` always returns the same string. -/
theorem headerFound_reports (r : GeneralResponse) (k : String) :
    ((r.headerFound k).2 = true ↔ StringUtils.tolower k ∈ r._headers.map Prod.fst) ∧
    (∀ v, r._headers.find (StringUtils.tolower k) = some v → r.headerFound k = (v, true)) ∧
    (StringUtils.tolower k ∉ r._headers.map Prod.fst → r.headerFound k = ("", false)) ∧
    r.header k = (r.headerFound k).1 := by
  have hnone := HeaderMap.find_eq_none_iff r._headers (StringUtils.tolower k)
  refine ⟨?_, ?_, ?_, ?_⟩
  · simp only [headerFound]
    cases hf : r._headers.find (StringUtils.tolower k) with
    | none => simpa using hnone.mp hf
    | some v =>
      have : ¬ StringUtils.tolower k ∉ r._headers.map Prod.fst := fun hc => by
        rw [hnone.mpr hc] at hf; exact absurd hf (by simp)
      simpa using this
  · intro v hv
    simp only [headerFound, hv]
  · intro hk
    simp only [headerFound, hnone.mpr hk]
  · simp only [header, headerFound]
    cases r._headers.find (StringUtils.tolower k) <;> rfl

/-- C17, on a concrete response with the one entry "server": the lookup of "Server" finds
its value, the lookup of "Location" reports a missing header. -/
theorem headerFound_reports_example :
    ((GeneralResponse.new ResponseCode.OK 0).setHeaderNC "server" "ArangoDB").headerFound
        "Server" = ("ArangoDB", true) ∧
    ((GeneralResponse.new ResponseCode.OK 0).setHeaderNC "server" "ArangoDB").headerFound
        "Location" = ("", false) :=
  ⟨(headerFound_reports _ "Server").2.1 "ArangoDB" (by decide),
   (headerFound_reports _ "Location").2.2.1 (by decide)⟩

/-- C18: the frame of the header setters: `setHeader(k, v)` and `setHeaderNC(k, v)` leave the
value stored under every key other than `k` as it was, remove no key from the header
map, and leave the response code and the API compatibility unchanged. -/
theorem setHeader_frame (r : GeneralResponse) (k v : String) :
    ((∀ k', k' ≠ k → (r.setHeader k v)._headers.find k' = r._headers.find k') ∧
      (∀ k' ∈ r._headers.map Prod.fst, k' ∈ (r.setHeader k v)._headers.map Prod.fst) ∧
      (r.setHeader k v)._responseCode = r._responseCode ∧
      (r.setHeader k v)._apiCompatibility = r._apiCompatibility) ∧
    ((∀ k', k' ≠ k → (r.setHeaderNC k v)._headers.find k' = r._headers.find k') ∧
      (∀ k' ∈ r._headers.map Prod.fst, k' ∈ (r.setHeaderNC k v)._headers.map Prod.fst) ∧
      (r.setHeaderNC k v)._responseCode = r._responseCode ∧
      (r.setHeaderNC k v)._apiCompatibility = r._apiCompatibility) :=
  ⟨⟨fun _ hk => HeaderMap.find_assign_ne r._headers k v hk,
     HeaderMap.keys_assign r._headers k v, rfl, rfl⟩,
   ⟨fun _ hk => HeaderMap.find_assign_ne r._headers k v hk,
     HeaderMap.keys_assign r._headers k v, rfl, rfl⟩⟩

/-- C18, on a concrete response with the entries "server" and "etag": setting "location"
and overwriting "etag" both leave the value of "server" as it was. -/
theorem setHeader_frame_example :
    ((((GeneralResponse.new ResponseCode.OK 0).setHeaderNC "server" "ArangoDB").setHeaderNC
        "etag" "1").setHeader "location" "/x")._headers.find "server" = some "ArangoDB" ∧
    ((((GeneralResponse.new ResponseCode.OK 0).setHeaderNC "server" "ArangoDB").setHeaderNC
        "etag" "1").setHeaderNC "etag" "2")._headers.find "server" = some "ArangoDB" := by
  constructor
  · rw [(setHeader_frame _ "location" "/x").1.1 "server" (by decide)]; decide
  · rw [(setHeader_frame _ "etag" "2").2.1 "server" (by decide)]; decide

end GeneralResponse
